import Mathlib

/-!
Verification development for the readykit multi-tenant SaaS backend.

The Python sources are shallowly embedded as pure Lean functions over an
explicit relational state (structure DB below).  Conventions:

- SQLAlchemy scalar_one_or_none is embedded as a function on the list of rows
  matching the query filter; it raises (Except.error) when more than one row
  matches, mirroring MultipleResultsFound.  Where a query condition is backed
  by a primary-key or unique constraint, List.find? is used instead.
- A Python exception that the source does not catch is modelled as an
  Except.error result carrying the durably committed state at the point of the
  raise (the web framework turns such an exception into a 500 response and the
  request-scoped session is rolled back, so uncommitted attribute changes are
  discarded).
- db.session.commit() is the only durability point: an operation that returns
  before committing leaves the stored state unchanged.  Commits that the
  source wraps in its own try/except, and commits whose failure the claims
  exercise, take an explicit Bool parameter saying whether the commit
  succeeds; a failed commit rolls back to the state of the previous commit.
- Calls to the external billing provider (session retrieval, hosted-page
  retrieval) are modelled as Except-valued parameters: Except.error stands for
  a provider call that raises, Except.ok for the value it returns.
- Timestamps are abstracted as Nat, password hashing as a tagged pure
  function; neither is load-bearing for any claim.
-/

namespace ReadyKit

/-! Data model, from src/enferno/user/models.py. -/

/-- User row (models.py, class User).  Only the columns the claims touch are
embedded; is_superadmin defaults to false as in the schema. -/
structure User where
  id : Nat
  name : Option String := none
  username : Option String := none
  email : String := ""
  password : String := ""
  active : Bool := false
  is_superadmin : Bool := false
  deriving Repr, DecidableEq

/-- Workspace row (models.py, class Workspace). -/
structure Workspace where
  id : Nat
  name : String := ""
  slug : String := ""
  owner_id : Nat
  plan : String := "free"
  billing_customer_id : Option String := none
  upgraded_at : Option Nat := none
  deriving Repr, DecidableEq

/-- Workspace.is_pro property (models.py line 279). -/
def Workspace.is_pro (w : Workspace) : Bool :=
  w.plan == "pro"

/-- Membership row (models.py, class Membership); composite primary key
(workspace_id, user_id). -/
structure Membership where
  workspace_id : Nat
  user_id : Nat
  role : String := "member"
  deriving Repr, DecidableEq

/-- APIKey row (models.py, class APIKey).  The display fragment of the key is
called prefix in the source; it is named key_pfx here. -/
structure APIKey where
  id : Nat
  workspace_id : Nat
  user_id : Nat
  name : String := ""
  key_pfx : String := ""
  key_hash : String := ""
  is_active : Bool := true
  deriving Repr, DecidableEq

/-- BillingEvent row (models.py, class BillingEvent): the idempotency ledger;
event_id carries a unique constraint. -/
structure BillingEvent where
  event_id : String
  event_type : Option String := none
  provider : Option String := none
  deriving Repr, DecidableEq

/-- The relational store: one list of rows per table the claims touch. -/
structure DB where
  users : List User := []
  workspaces : List Workspace := []
  memberships : List Membership := []
  apiKeys : List APIKey := []
  billingEvents : List BillingEvent := []
  deriving Repr, DecidableEq

/-- SQLAlchemy scalar_one_or_none applied to the rows matching a filter:
none of them gives Except.ok none, exactly one gives Except.ok (some row),
several raise MultipleResultsFound (Except.error). -/
def scalar_one_or_none {α : Type} (rows : List α) : Except Unit (Option α) :=
  match rows with
  | [] => Except.ok none
  | [a] => Except.ok (some a)
  | _ :: _ :: _ => Except.error ()

/-- Number of superadmin users in the store (the count query of
validate_super_admin_change). -/
def saCount (db : DB) : Nat :=
  (db.users.filter (fun u => u.is_superadmin)).length

/-- Python truthiness of an optional string: None and the empty string are
falsy. -/
def optStrTruthy : Option String → Bool
  | none => false
  | some s => !(s == "")

/-- Python str.startswith on the character sequences of the two strings. -/
def strStartsWith (s pre : String) : Bool :=
  List.isPrefixOf pre.data s.data

/-- Python int() applied to the decimal string this system itself writes into
session metadata: defined on digit-only nonempty strings, none otherwise (a
failing int() raises in the source, which its callers do not catch). -/
def strToNat (s : String) : Option Nat :=
  if !s.data.isEmpty && s.data.all (fun c => c.isDigit) then
    some (s.data.foldl (fun n c => n * 10 + (c.toNat - 48)) 0)
  else none

/-! Role resolution, from src/enferno/user/models.py lines 136-143. -/

/-- User.get_workspace_role (models.py): looks up the Membership row for
(user, workspace) with scalar_one_or_none and returns its role, or none when
no row exists.  Ownership of the workspace is not consulted. -/
def get_workspace_role (db : DB) (userId workspaceId : Nat) :
    Except Unit (Option String) :=
  match scalar_one_or_none (db.memberships.filter
      (fun m => m.user_id == userId && m.workspace_id == workspaceId)) with
  | Except.error _ => Except.error ()
  | Except.ok none => Except.ok none
  | Except.ok (some m) => Except.ok (some m.role)

/-! Superadmin validation and user CRUD, from src/enferno/user/views.py. -/

/-- Stand-in for flask_security hash_password; the claims never inspect the
hash, only that the stored credential is derived from the input. -/
def hash_password (s : String) : String :=
  "hashed:" ++ s

/-- JSON body of the user create/update endpoints (the item object).  A field
of type Option models key presence; is_superadmin is split into key presence
and its (JSON boolean) value because the source tests them separately. -/
structure UserItemData where
  name : Option String := none
  username : Option String := none
  password : Option String := none
  active : Option Bool := none
  is_superadmin_key : Bool := false
  is_superadmin_val : Bool := false
  workspace_ids : Option (List Nat) := none
  deriving Repr, DecidableEq

/-- User.from_dict (models.py lines 96-102): updates name, username, password
(hashed) and active from the posted dict; notably it never touches
is_superadmin or email. -/
def User.from_dict (u : User) (d : UserItemData) : User :=
  { u with
    name := match d.name with | some n => some n | none => u.name
    username := match d.username with | some n => some n | none => u.username
    password := match d.password with | some p => hash_password p | none => u.password
    active := match d.active with | some a => a | none => u.active }

/-- validate_super_admin_change (user/views.py lines 30-54).  Returns
Except.ok (some (message, 400)) when the change is rejected, Except.ok none
when it is allowed; the promote path queries all superadmin rows with
scalar_one_or_none, which raises when more than one exists. -/
def validate_super_admin_change (db : DB) (user : User) (new_status : Bool) :
    Except Unit (Option (String × Nat)) :=
  if new_status && !user.is_superadmin then
    match scalar_one_or_none (db.users.filter (fun u => u.is_superadmin)) with
    | Except.error _ => Except.error ()
    | Except.ok (some _) =>
        Except.ok (some
          ("Only one super admin is allowed. Use CLI command to create additional super admins if needed.",
           400))
    | Except.ok none => Except.ok none
  else if !new_status && user.is_superadmin then
    if saCount db ≤ 1 then
      Except.ok (some
        ("Cannot remove the last super admin. Create another super admin first.",
         400))
    else Except.ok none
  else Except.ok none

/-- Outcome of a JSON API mutation: HTTP status plus the durably stored
state after the request. -/
structure ApiResult where
  status : Nat
  db : DB
  deriving Repr, DecidableEq

/-- Commit step of api_user_create: adds the new user row and, when the
workspace_ids key is present and the user is not a superadmin, one member-role
Membership row per listed workspace; a failing commit rolls everything back
(the begin/flush/commit all happen in one transaction). -/
def api_user_create_finish (db : DB) (user : User) (d : UserItemData)
    (commitOk : Bool) : ApiResult :=
  let newMemberships : List Membership :=
    match d.workspace_ids with
    | some ids =>
        if !user.is_superadmin then
          ids.map (fun wid => { workspace_id := wid, user_id := user.id, role := "member" })
        else []
    | none => []
  if commitOk then
    { status := 200,
      db := { db with
        users := db.users ++ [user],
        memberships := db.memberships ++ newMemberships } }
  else { status := 400, db := db }

/-- api_user_create (user/views.py lines 108-140): builds a fresh User (the
constructor leaves is_superadmin false and from_dict never sets it), validates
a requested promotion before any insert, and only then adds the row and
memberships and commits. -/
def api_user_create (db : DB) (d : UserItemData) (newId : Nat)
    (commitOk : Bool) : Except Unit ApiResult :=
  let user0 : User := { id := newId }
  let user1 := User.from_dict user0 d
  if d.is_superadmin_key && d.is_superadmin_val then
    match validate_super_admin_change db user1 true with
    | Except.error _ => Except.error ()
    | Except.ok (some (_, code)) => Except.ok { status := code, db := db }
    | Except.ok none =>
        Except.ok (api_user_create_finish db { user1 with is_superadmin := true } d commitOk)
  else
    Except.ok (api_user_create_finish db user1 d commitOk)

/-- Commit step of api_user_update: replaces the user row; when the
workspace_ids key is present and the user is not a superadmin, all of the
user's Membership rows are deleted and replaced by member-role rows for the
listed workspaces; a failing commit rolls the whole request back. -/
def api_user_update_finish (db : DB) (userId : Nat) (user : User)
    (d : UserItemData) (commitOk : Bool) : ApiResult :=
  let db1 := { db with
    users := db.users.map (fun u => if u.id == userId then user else u) }
  let db2 :=
    match d.workspace_ids with
    | some ids =>
        if !user.is_superadmin then
          { db1 with memberships :=
              (db1.memberships.filter (fun m => !(m.user_id == userId))) ++
              ids.map (fun wid => { workspace_id := wid, user_id := userId, role := "member" }) }
        else db1
    | none => db1
  if commitOk then { status := 200, db := db2 }
  else { status := 400, db := db }

/-- api_user_update (user/views.py lines 143-177): loads the user by primary
key (404 when absent), applies from_dict, validates a superadmin change when
the is_superadmin key is present and returns 400 with no durable change when
rejected (the uncommitted from_dict mutations are discarded at rollback),
otherwise applies the change and commits. -/
def api_user_update (db : DB) (userId : Nat) (d : UserItemData)
    (commitOk : Bool) : Except Unit ApiResult :=
  match db.users.find? (fun u => u.id == userId) with
  | none => Except.ok { status := 404, db := db }
  | some user =>
    let user1 := User.from_dict user d
    if d.is_superadmin_key then
      match validate_super_admin_change db user1 d.is_superadmin_val with
      | Except.error _ => Except.error ()
      | Except.ok (some (_, code)) => Except.ok { status := code, db := db }
      | Except.ok none =>
          Except.ok (api_user_update_finish db userId
            { user1 with is_superadmin := d.is_superadmin_val } d commitOk)
    else
      Except.ok (api_user_update_finish db userId user1 d commitOk)

/-! Profile update, from src/enferno/portal/views.py lines 234-252. -/

/-- JSON body of PUT /api/profile: presence of the email and name keys, and
the posted name value (which may be JSON null). -/
structure ProfileData where
  email_key : Bool := false
  name_key : Bool := false
  name_val : Option String := none
  deriving Repr, DecidableEq

/-- profile_update (portal/views.py): any body containing an email key is
rejected with 400 before touching the user; otherwise the name is updated when
present and the change is committed (a failing commit rolls back). -/
def profile_update (u : User) (d : ProfileData) (commitOk : Bool) :
    Nat × User :=
  if d.email_key then (400, u)
  else
    let u1 := if d.name_key then { u with name := d.name_val } else u
    if commitOk then (200, u1) else (400, u)

/-! Plan gating, from src/enferno/services/billing.py lines 225-241. -/

/-- Result of running a handler wrapped by requires_pro_plan. -/
inductive ProGuard (α : Type) where
  | handlerRun (a : α)
  | jsonErr (msg : String) (status : Nat)
  | redirectUpgrade (workspace_id : Nat)
  deriving Repr, DecidableEq

/-- requires_pro_plan (billing.py): reads the workspace already resolved into
request context by the authorization gate; 404 when absent, 402 for non-pro
workspaces on JSON or /api/ requests, a redirect to the upgrade flow of that
workspace for non-pro page requests, and the wrapped handler otherwise. -/
def requires_pro_plan {α : Type} (current_workspace : Option Workspace)
    (is_json : Bool) (path : String) (handler : α) : ProGuard α :=
  match current_workspace with
  | none => ProGuard.jsonErr "Workspace not found" 404
  | some w =>
    if !w.is_pro then
      if is_json || strStartsWith path "/api/" then
        ProGuard.jsonErr "Pro plan required" 402
      else
        ProGuard.redirectUpgrade w.id
    else
      ProGuard.handlerRun handler

/-! Billing synchronizer, from src/enferno/services/billing.py.  The two
provider implementations of HostedBilling.handle_successful_payment are
embedded separately; the provider API calls are Except-valued parameters. -/

/-- The checkout session object returned by the Stripe API for a session id:
the fields handle_successful_payment reads.  metadata_workspace_id is the
workspace_id entry of the session metadata (a string, absent when the key is
missing). -/
structure StripeSession where
  id : String := ""
  status : String := ""
  payment_status : String := ""
  metadata_workspace_id : Option String := none
  customer : Option String := none
  deriving Repr, DecidableEq

/-- HostedBilling.handle_successful_payment, Stripe variant (billing.py lines
67-110).  stripeKeyConfigured models the STRIPE_SECRET_KEY check of
_init_stripe (a missing key raises); retrieveResult models
stripe.checkout.Session.retrieve (Except.error when the provider call
raises); commitOk models the commit guarded by the try/except, whose failure
rolls back and yields none.  Non-numeric workspace_id metadata makes the
Python int() call raise, which the function does not catch. -/
def stripe_handle_successful_payment (stripeKeyConfigured : Bool)
    (retrieveResult : Except Unit StripeSession) (commitOk : Bool) (now : Nat)
    (db : DB) : Except Unit (Option Nat × DB) :=
  if !stripeKeyConfigured then Except.error ()
  else match retrieveResult with
  | Except.error _ => Except.error ()
  | Except.ok s =>
    if !(s.status == "complete") then Except.ok (none, db)
    else if !(s.payment_status == "paid" || s.payment_status == "no_payment_required") then
      Except.ok (none, db)
    else if !(optStrTruthy s.metadata_workspace_id) then Except.ok (none, db)
    else match strToNat (s.metadata_workspace_id.getD "") with
    | none => Except.error ()
    | some wid =>
      match db.workspaces.find? (fun w => w.id == wid) with
      | none => Except.ok (none, db)
      | some w =>
        if w.is_pro then Except.ok (some w.id, db)
        else if commitOk then
          Except.ok (some w.id,
            { db with workspaces := db.workspaces.map (fun x =>
                if x.id == wid then
                  { x with plan := "pro",
                           billing_customer_id := s.customer,
                           upgraded_at := some now }
                else x) })
        else Except.ok (none, db)

/-- The hosted page object returned by the Chargebee API: the fields
handle_successful_payment reads.  pass_thru_workspace_id is the workspace_id
entry of the parsed pass_thru_content JSON; content_customer_id is
content.customer.id, absent when either key is missing (the Python dict
access then raises KeyError inside the try block, which the except catches). -/
structure ChargebeeHostedPage where
  id : String := ""
  state : String := ""
  pass_thru_workspace_id : Option String := none
  content_customer_id : Option String := none
  deriving Repr, DecidableEq

/-- HostedBilling.handle_successful_payment, Chargebee variant (billing.py
lines 179-219).  Mirrors the Stripe variant with state "succeeded" as the
terminal success condition and the customer id taken from the page content;
a missing customer id raises KeyError inside the guarded block, which the
except turns into a rollback and none. -/
def chargebee_handle_successful_payment (cbConfigured : Bool)
    (retrieveResult : Except Unit ChargebeeHostedPage) (commitOk : Bool)
    (now : Nat) (db : DB) : Except Unit (Option Nat × DB) :=
  if !cbConfigured then Except.error ()
  else match retrieveResult with
  | Except.error _ => Except.error ()
  | Except.ok hp =>
    if !(hp.state == "succeeded") then Except.ok (none, db)
    else if !(optStrTruthy hp.pass_thru_workspace_id) then Except.ok (none, db)
    else match strToNat (hp.pass_thru_workspace_id.getD "") with
    | none => Except.error ()
    | some wid =>
      match db.workspaces.find? (fun w => w.id == wid) with
      | none => Except.ok (none, db)
      | some w =>
        if w.is_pro then Except.ok (some w.id, db)
        else match hp.content_customer_id with
        | none => Except.ok (none, db)
        | some cust =>
          if commitOk then
            Except.ok (some w.id,
              { db with workspaces := db.workspaces.map (fun x =>
                  if x.id == wid then
                    { x with plan := "pro",
                             billing_customer_id := some cust,
                             upgraded_at := some now }
                  else x) })
          else Except.ok (none, db)

/-! Webhook ingestion, from src/enferno/api/webhooks.py. -/

/-- A Stripe webhook event after signature verification: its id and type, and
the data.object fields the dispatch branches read (the session id for
checkout completion, the customer id for cancellations and payment
failures). -/
structure StripeEvent where
  id : String
  type : String := ""
  obj_id : Option String := none
  obj_customer : Option String := none
  deriving Repr, DecidableEq

/-- Response of a webhook endpoint that did not raise: body, HTTP status, the
stored state after the request, and whether a recognized event type was
dispatched (false on duplicate, unrecognized and pre-verification exits). -/
structure WebhookOut where
  body : String
  status : Nat
  db : DB
  dispatched : Bool
  deriving Repr, DecidableEq

/-- Dispatch block of stripe_webhook (webhooks.py lines 47-87), run only on
first-seen events, on the state db1 in which the BillingEvent row is already
committed.  It runs outside any try/except: an exception (modelled as
Except.error, carrying db1 with the event already recorded) escapes the
handler and the framework answers with a 500. -/
def stripe_dispatch (event : StripeEvent) (stripeKeyConfigured : Bool)
    (retrieveResult : Except Unit StripeSession)
    (upgradeCommitOk downgradeCommitOk : Bool) (now : Nat)
    (db1 : DB) : Except DB WebhookOut :=
  if event.type == "checkout.session.completed" then
    match stripe_handle_successful_payment stripeKeyConfigured retrieveResult
        upgradeCommitOk now db1 with
    | Except.error _ => Except.error db1
    | Except.ok (_, db2) =>
        Except.ok { body := "OK", status := 200, db := db2, dispatched := true }
  else if event.type == "customer.subscription.deleted" then
    match scalar_one_or_none (db1.workspaces.filter
        (fun w => w.billing_customer_id == event.obj_customer)) with
    | Except.error _ => Except.error db1
    | Except.ok none =>
        Except.ok { body := "OK", status := 200, db := db1, dispatched := true }
    | Except.ok (some w) =>
        if downgradeCommitOk then
          Except.ok
            { body := "OK", status := 200,
              db := { db1 with workspaces := db1.workspaces.map (fun x =>
                if x.id == w.id then { x with plan := "free" } else x) },
              dispatched := true }
        else Except.error db1
  else if event.type == "invoice.payment_failed" then
    match scalar_one_or_none (db1.workspaces.filter
        (fun w => w.billing_customer_id == event.obj_customer)) with
    | Except.error _ => Except.error db1
    | Except.ok none =>
        Except.ok { body := "OK", status := 200, db := db1, dispatched := true }
    | Except.ok (some w) =>
        if w.plan == "pro" then
          if downgradeCommitOk then
            Except.ok
              { body := "OK", status := 200,
                db := { db1 with workspaces := db1.workspaces.map (fun x =>
                  if x.id == w.id then { x with plan := "free" } else x) },
                dispatched := true }
          else Except.error db1
        else
          Except.ok { body := "OK", status := 200, db := db1, dispatched := true }
  else
    Except.ok { body := "OK", status := 200, db := db1, dispatched := false }

/-- stripe_webhook (webhooks.py lines 18-87), verification and deduplication
around stripe_dispatch as in the source: 500 when the webhook secret is
unconfigured, 400 when signature verification or payload parsing fails, then
the record-first BillingEvent insert whose unique-constraint violation is the
deduplication (rollback plus a 200 acknowledgment, no dispatch). -/
def stripe_webhook (secret : Option String)
    (constructResult : Except Unit StripeEvent)
    (stripeKeyConfigured : Bool) (retrieveResult : Except Unit StripeSession)
    (upgradeCommitOk downgradeCommitOk : Bool) (now : Nat)
    (db : DB) : Except DB WebhookOut :=
  if !(optStrTruthy secret) then
    Except.ok { body := "Webhook secret not configured", status := 500, db := db, dispatched := false }
  else match constructResult with
  | Except.error _ =>
      Except.ok { body := "Invalid request", status := 400, db := db, dispatched := false }
  | Except.ok event =>
    if db.billingEvents.any (fun e => e.event_id == event.id) then
      Except.ok { body := "OK", status := 200, db := db, dispatched := false }
    else
      stripe_dispatch event stripeKeyConfigured retrieveResult upgradeCommitOk
        downgradeCommitOk now
        { db with billingEvents := db.billingEvents ++
          [{ event_id := event.id, event_type := some event.type, provider := some "stripe" }] }

/-- A Chargebee webhook event body: its id and event_type, and the
content.customer.id field the dispatch branches read. -/
structure ChargebeeEvent where
  id : String
  event_type : Option String := none
  content_customer_id : Option String := none
  deriving Repr, DecidableEq

/-- _verify_chargebee_auth (webhooks.py lines 91-105): with unconfigured
credentials it rejects in production and accepts in debug mode; with
configured credentials the request must carry matching Basic Auth. -/
def chargebee_verify_auth (username password : Option String) (debug : Bool)
    (reqAuth : Option (String × String)) : Bool :=
  if !(optStrTruthy username) || !(optStrTruthy password) then
    if !debug then false else true
  else
    match reqAuth with
    | none => false
    | some (u, p) => u == username.getD "" && p == password.getD ""

/-- Dispatch block of chargebee_webhook (webhooks.py lines 132-167), run only
on first-seen events on the state db1 with the BillingEvent row committed:
the two downgrade branches (checkout upgrades arrive via the redirect flow,
not this webhook).  The downgrade commits are not wrapped in try/except: a
failing commit is an escaping exception (Except.error, with the event already
recorded). -/
def chargebee_dispatch (event : ChargebeeEvent) (downgradeCommitOk : Bool)
    (db1 : DB) : Except DB WebhookOut :=
  if event.event_type == some "subscription_cancelled" then
    match scalar_one_or_none (db1.workspaces.filter
        (fun w => w.billing_customer_id == event.content_customer_id)) with
    | Except.error _ => Except.error db1
    | Except.ok none =>
        Except.ok { body := "OK", status := 200, db := db1, dispatched := true }
    | Except.ok (some w) =>
        if downgradeCommitOk then
          Except.ok
            { body := "OK", status := 200,
              db := { db1 with workspaces := db1.workspaces.map (fun x =>
                if x.id == w.id then { x with plan := "free" } else x) },
              dispatched := true }
        else Except.error db1
  else if event.event_type == some "payment_failed" then
    match scalar_one_or_none (db1.workspaces.filter
        (fun w => w.billing_customer_id == event.content_customer_id)) with
    | Except.error _ => Except.error db1
    | Except.ok none =>
        Except.ok { body := "OK", status := 200, db := db1, dispatched := true }
    | Except.ok (some w) =>
        if w.plan == "pro" then
          if downgradeCommitOk then
            Except.ok
              { body := "OK", status := 200,
                db := { db1 with workspaces := db1.workspaces.map (fun x =>
                  if x.id == w.id then { x with plan := "free" } else x) },
                dispatched := true }
          else Except.error db1
        else
          Except.ok { body := "OK", status := 200, db := db1, dispatched := true }
  else
    Except.ok { body := "OK", status := 200, db := db1, dispatched := false }

/-- chargebee_webhook (webhooks.py lines 107-167): 401 on failed Basic Auth,
400 on a missing or empty JSON body, then the same record-first deduplication
as the Stripe endpoint around chargebee_dispatch. -/
def chargebee_webhook (username password : Option String) (debug : Bool)
    (reqAuth : Option (String × String)) (jsonBody : Option ChargebeeEvent)
    (downgradeCommitOk : Bool) (db : DB) : Except DB WebhookOut :=
  if !(chargebee_verify_auth username password debug reqAuth) then
    Except.ok { body := "Unauthorized", status := 401, db := db, dispatched := false }
  else match jsonBody with
  | none =>
      Except.ok { body := "Invalid request", status := 400, db := db, dispatched := false }
  | some event =>
    if db.billingEvents.any (fun e => e.event_id == event.id) then
      Except.ok { body := "OK", status := 200, db := db, dispatched := false }
    else
      chargebee_dispatch event downgradeCommitOk
        { db with billingEvents := db.billingEvents ++
          [{ event_id := event.id, event_type := event.event_type, provider := some "chargebee" }] }

/-! Workspace access control.  The Access Resolver and the Workspace
Authorization Gate live in enferno/services/workspace.py, which is not among
the provided source files (only its callers in portal/views.py and its import
check in checks.py are); they are therefore modelled from the specification
(sections 4.1 and 4.2). -/

/-- Modelled from the spec: resolve_role of section 4.1 (Access Resolver, in
the absent enferno/services/workspace.py).  Returns owner if the user is the
workspace owner; otherwise the Membership role if one exists; otherwise
none. -/
def resolve_role (db : DB) (user : User) (workspaceId : Nat) : Option String :=
  match db.workspaces.find? (fun w => w.id == workspaceId) with
  | none => none
  | some w =>
    if w.owner_id == user.id then some "owner"
    else (db.memberships.find?
        (fun m => m.user_id == user.id && m.workspace_id == workspaceId)).map
      (fun m => m.role)

/-- Modelled from the spec: the role-ordering check of section 4.2 step 5,
with member below admin and owner at least admin; a gate with minimum role
member admits any resolved role. -/
def role_satisfies (role minRole : String) : Bool :=
  if minRole == "admin" then role == "admin" || role == "owner"
  else true

/-- Outcome of the Workspace Authorization Gate: denial with an HTTP status,
or the resolved workspace and published role handed to the handler body
(superadmin access publishes no workspace role, spec section 4.2 step 3). -/
inductive GateResult where
  | denied (status : Nat)
  | granted (w : Workspace) (publishedRole : Option String)
  deriving Repr, DecidableEq

/-- Modelled from the spec: require_workspace_access of section 4.2
(Workspace Authorization Gate, in the absent enferno/services/workspace.py).
Target workspace id comes from the route parameter, else from the session
selection; no id or no such workspace denies with 404; a superadmin is
granted unconditionally; otherwise the resolved role must exist and satisfy
the minimum, else 403. -/
def require_workspace_access (minRole : String) (db : DB) (user : User)
    (pathWorkspaceId sessionWorkspaceId : Option Nat) : GateResult :=
  match pathWorkspaceId.orElse (fun _ => sessionWorkspaceId) with
  | none => GateResult.denied 404
  | some wid =>
    match db.workspaces.find? (fun w => w.id == wid) with
    | none => GateResult.denied 404
    | some w =>
      if user.is_superadmin then GateResult.granted w none
      else
        match resolve_role db user wid with
        | none => GateResult.denied 403
        | some r =>
          if role_satisfies r minRole then GateResult.granted w (some r)
          else GateResult.denied 403

/-! Workspace-scoped portal endpoints, from src/enferno/portal/views.py; each
handler body is the source translation, wrapped in the spec-modelled gate
with the minimum role of its decorator. -/

/-- Response of a data endpoint: payload on success, bare HTTP status on a
gate denial or handler error (error responses carry no workspace data). -/
inductive Resp (α : Type) where
  | ok (data : α)
  | err (status : Nat)
  deriving Repr, DecidableEq

/-- list_api_keys (portal/views.py lines 116-125, gate minimum member):
returns the active API keys of the workspace in the URL. -/
def list_api_keys (db : DB) (user : User) (workspaceId : Nat) :
    Resp (List APIKey) × DB :=
  match require_workspace_access "member" db user (some workspaceId) none with
  | GateResult.denied s => (Resp.err s, db)
  | GateResult.granted _ _ =>
    (Resp.ok (db.apiKeys.filter
        (fun k => k.workspace_id == workspaceId && k.is_active)), db)

/-- create_api_key (portal/views.py lines 128-148, gate minimum admin): a
blank name is a 400; otherwise the generated key row is stored and the full
secret returned once.  The generated randomness (full key, display fragment,
hash) and the assigned row id enter as parameters. -/
def create_api_key (db : DB) (user : User) (workspaceId : Nat)
    (reqName : Option String) (newId : Nat) (fullKey pfx keyHash : String) :
    Resp (String × Nat × String) × DB :=
  match require_workspace_access "admin" db user (some workspaceId) none with
  | GateResult.denied s => (Resp.err s, db)
  | GateResult.granted _ _ =>
    let name := (reqName.getD "").trim
    if name == "" then (Resp.err 400, db)
    else
      let row : APIKey :=
        { id := newId, workspace_id := workspaceId,
          user_id := user.id, name := name, key_pfx := pfx, key_hash := keyHash }
      (Resp.ok (fullKey, newId, name), { db with apiKeys := db.apiKeys ++ [row] })

/-- revoke_api_key (portal/views.py lines 151-166, gate minimum admin): finds
the key by id and workspace id (the id is the primary key, so find? suffices),
404 when absent, else soft-revokes by clearing is_active. -/
def revoke_api_key (db : DB) (user : User) (workspaceId keyId : Nat) :
    Resp String × DB :=
  match require_workspace_access "admin" db user (some workspaceId) none with
  | GateResult.denied s => (Resp.err s, db)
  | GateResult.granted _ _ =>
    match db.apiKeys.find?
        (fun k => k.id == keyId && k.workspace_id == workspaceId) with
    | none => (Resp.err 404, db)
    | some _ =>
      (Resp.ok "Key revoked",
        { db with apiKeys := db.apiKeys.map (fun k =>
            if k.id == keyId && k.workspace_id == workspaceId then
              { k with is_active := false }
            else k) })

/-- workspace_stats (portal/views.py lines 204-214, gate minimum member):
counts the Membership rows of the workspace in the URL. -/
def workspace_stats (db : DB) (user : User) (workspaceId : Nat) :
    Resp Nat × DB :=
  match require_workspace_access "member" db user (some workspaceId) none with
  | GateResult.denied s => (Resp.err s, db)
  | GateResult.granted _ _ =>
    (Resp.ok ((db.memberships.filter
        (fun m => m.workspace_id == workspaceId)).length), db)

/-- workspace_update (portal/views.py lines 217-231, gate minimum admin):
renames the gate-resolved workspace when the body has a name key, then
commits; a failing commit rolls back to a 400. -/
def workspace_update (db : DB) (user : User) (workspaceId : Nat)
    (reqName : Option String) (commitOk : Bool) : Resp String × DB :=
  match require_workspace_access "admin" db user (some workspaceId) none with
  | GateResult.denied s => (Resp.err s, db)
  | GateResult.granted w _ =>
    let db1 :=
      match reqName with
      | some n =>
          { db with workspaces := db.workspaces.map (fun x =>
              if x.id == w.id then { x with name := n } else x) }
      | none => db
    if commitOk then (Resp.ok "Workspace updated successfully", db1)
    else (Resp.err 400, db)

/-- One row of the member listing: user id, name, email and membership
role. -/
structure MemberItem where
  user_id : Nat
  name : Option String
  email : String
  role : String
  deriving Repr, DecidableEq

/-- workspace_members (portal/views.py lines 255-297, gate minimum member):
the Membership rows of the workspace joined with their users, paginated, plus
the total count. -/
def workspace_members (db : DB) (user : User) (workspaceId : Nat)
    (page perPage : Nat) : Resp (List MemberItem × Nat) × DB :=
  match require_workspace_access "member" db user (some workspaceId) none with
  | GateResult.denied s => (Resp.err s, db)
  | GateResult.granted _ _ =>
    let rows := db.memberships.filter (fun m => m.workspace_id == workspaceId)
    let joined := rows.filterMap (fun m =>
      (db.users.find? (fun u => u.id == m.user_id)).map (fun u =>
        { user_id := u.id, name := u.name, email := u.email, role := m.role }))
    (Resp.ok ((joined.drop ((page - 1) * perPage)).take perPage, rows.length), db)

/-! Helper lemmas shared by the claim theorems. -/

/-- A list whose superadmin filter has length one is nonempty on that
filter: the single superadmin row. -/
lemma filter_length_one_exists {α : Type} (p : α → Bool) (l : List α)
    (h : (l.filter p).length = 1) : ∃ a, l.filter p = [a] :=
  List.length_eq_one.mp h

/-- Concrete example state used by the witnesses: user 2 is an ordinary
member of workspace 1; workspace 2 belongs to user 3. -/
def exUserA : User := { id := 2, email := "a@example.com" }

/-- Concrete workspace 1, owned by user 2. -/
def exWs1 : Workspace := { id := 1, owner_id := 2 }

/-- Concrete workspace 2, owned by user 3, on the free plan with a stored
billing customer id. -/
def exWs2 : Workspace :=
  { id := 2, owner_id := 3, plan := "free", billing_customer_id := some "cus_123" }

/-- Concrete store for the witnesses. -/
def exDB : DB :=
  { users := [{ id := 3, email := "o@example.com", is_superadmin := true }, exUserA],
    workspaces := [exWs1, exWs2],
    memberships := [{ workspace_id := 1, user_id := 2, role := "member" }],
    apiKeys := [{ id := 7, workspace_id := 2, user_id := 3, name := "k" }],
    billingEvents := [] }

/-! Claim C9. -/

/-- Claim C9: when the resolved current workspace is not on the pro plan, the
requires_pro_plan guard never invokes the wrapped handler — it answers 402 on
a JSON or /api/ request and redirects to the upgrade flow of that workspace on
a page request — and when the plan is pro the wrapped handler runs. -/
theorem claim_C9_pro_plan_guard {α : Type} (w : Workspace) (is_json : Bool)
    (path : String) (handler : α) :
    (w.plan ≠ "pro" →
      (∀ a : α, requires_pro_plan (some w) is_json path handler ≠ ProGuard.handlerRun a) ∧
      ((is_json = true ∨ strStartsWith path "/api/" = true) →
        requires_pro_plan (some w) is_json path handler =
          ProGuard.jsonErr "Pro plan required" 402) ∧
      (is_json = false → strStartsWith path "/api/" = false →
        requires_pro_plan (some w) is_json path handler =
          ProGuard.redirectUpgrade w.id)) ∧
    (w.plan = "pro" →
      requires_pro_plan (some w) is_json path handler = ProGuard.handlerRun handler) := by
  constructor
  · intro hplan
    have hb : (w.plan == "pro") = false := by
      simp [hplan]
    by_cases hjp : (is_json || strStartsWith path "/api/") = true
    · refine ⟨?_, ?_, ?_⟩
      · intro a
        simp [requires_pro_plan, Workspace.is_pro, hb, hjp]
      · intro _
        simp [requires_pro_plan, Workspace.is_pro, hb, hjp]
      · intro hj hp
        rw [hj, hp] at hjp
        simp at hjp
    · have hor := hjp
      simp only [Bool.or_eq_true, not_or, Bool.not_eq_true] at hor
      refine ⟨?_, ?_, ?_⟩
      · intro a
        simp [requires_pro_plan, Workspace.is_pro, hb, hor.1, hor.2]
      · rintro (h | h)
        · rw [h] at hor
          simp at hor
        · rw [h] at hor
          simp at hor
      · intro _ _
        simp [requires_pro_plan, Workspace.is_pro, hb, hor.1, hor.2]
  · intro hplan
    simp [requires_pro_plan, Workspace.is_pro, hplan]

/-- Witness for claim C9 at concrete inputs: workspace 2 is free, so a JSON
request is answered 402 and a page request is redirected to the upgrade flow
of workspace 2; a pro workspace reaches the handler. -/
theorem claim_C9_pro_plan_guard_witness :
    requires_pro_plan (some exWs2) true "/workspace/keys/" 0 =
      ProGuard.jsonErr "Pro plan required" 402 ∧
    requires_pro_plan (some exWs2) false "/workspace/keys/" 0 =
      ProGuard.redirectUpgrade 2 ∧
    requires_pro_plan (some { exWs2 with plan := "pro" }) true "/workspace/keys/" 0 =
      ProGuard.handlerRun 0 :=
  ⟨((claim_C9_pro_plan_guard exWs2 true "/workspace/keys/" 0).1 (by decide)).2.1
      (Or.inl rfl),
   by
    have h := ((claim_C9_pro_plan_guard exWs2 false "/workspace/keys/" 0).1
      (by decide)).2.2 rfl (by decide)
    simpa [exWs2] using h,
   (claim_C9_pro_plan_guard { exWs2 with plan := "pro" } true "/workspace/keys/" 0).2 rfl⟩

/-! Claim C10. -/

/-- Claim C10: a profile-update body containing an email key is rejected with
400 and no user change; every outcome differs from the stored user at most in
the name field (so the email is never changed by this endpoint); and a body
without the email key updates exactly the name when it carries one and the
commit succeeds. -/
theorem claim_C10_email_immutable (u : User) (d : ProfileData) (commitOk : Bool) :
    (d.email_key = true → profile_update u d commitOk = (400, u)) ∧
    ((profile_update u d commitOk).2 =
      { u with name := (profile_update u d commitOk).2.name }) ∧
    ((profile_update u d commitOk).2.email = u.email) ∧
    (d.email_key = false → d.name_key = true → commitOk = true →
      profile_update u d commitOk = (200, { u with name := d.name_val })) := by
  refine ⟨?_, ?_, ?_, ?_⟩
  · intro h
    simp [profile_update, h]
  · by_cases h : d.email_key <;> by_cases hn : d.name_key <;>
      cases commitOk <;> simp [profile_update, h, hn]
  · by_cases h : d.email_key <;> by_cases hn : d.name_key <;>
      cases commitOk <;> simp [profile_update, h, hn]
  · intro h hn hc
    simp [profile_update, h, hn, hc]

/-- Witness for claim C10 at concrete inputs: a body with an email key is
rejected leaving user A unchanged, and a body with only a name key renames
user A. -/
theorem claim_C10_email_immutable_witness :
    profile_update exUserA { email_key := true } true = (400, exUserA) ∧
    profile_update exUserA { name_key := true, name_val := some "Ada" } true =
      (200, { exUserA with name := some "Ada" }) :=
  ⟨(claim_C10_email_immutable exUserA { email_key := true } true).1 rfl,
   (claim_C10_email_immutable exUserA
      { name_key := true, name_val := some "Ada" } true).2.2.2 rfl rfl rfl⟩

/-! Claim C4.  User.get_workspace_role is the role resolution the claim
cites; it reads only the Membership table, so ownership of the workspace
never yields the role owner. -/

/-- Store refuting claim C4: user 1 owns workspace 1 but holds no Membership
row in it. -/
def c4DB : DB :=
  { users := [{ id := 1, email := "owner@example.com" }],
    workspaces := [{ id := 1, owner_id := 1 }],
    memberships := [] }

/-- Counterexample to claim C4 as stated: in c4DB the workspace owner
relation holds (workspace 1 has owner_id 1) yet get_workspace_role resolves
user 1 in workspace 1 to none, not to the role owner. -/
theorem claim_C4_counterexample :
    c4DB.workspaces = [{ id := 1, owner_id := 1 }] ∧
    get_workspace_role c4DB 1 1 = Except.ok none ∧
    (Except.ok none : Except Unit (Option String)) ≠ Except.ok (some "owner") := by
  refine ⟨rfl, rfl, by simp⟩

/-- Claim C4 (amended): role resolution via User.get_workspace_role ignores
workspace ownership entirely — under the composite primary key on
(workspace_id, user_id) it returns the role of the Membership row for the
pair when one exists and none otherwise, so an owner without a Membership row
resolves to none rather than owner. -/
theorem claim_C4_role_resolution_amended (db : DB) (uid wid : Nat)
    (hpk : db.memberships.Pairwise
      (fun a b => a.user_id ≠ b.user_id ∨ a.workspace_id ≠ b.workspace_id)) :
    (∀ m ∈ db.memberships, m.user_id = uid → m.workspace_id = wid →
      get_workspace_role db uid wid = Except.ok (some m.role)) ∧
    ((∀ m ∈ db.memberships, ¬(m.user_id = uid ∧ m.workspace_id = wid)) →
      get_workspace_role db uid wid = Except.ok none) := by
  constructor
  · intro m hm hmu hmw
    have hmf : m ∈ db.memberships.filter
        (fun m => m.user_id == uid && m.workspace_id == wid) := by
      refine List.mem_filter.mpr ⟨hm, ?_⟩
      simp [hmu, hmw]
    have hpf := hpk.filter
      (fun m => m.user_id == uid && m.workspace_id == wid)
    match hfl : db.memberships.filter
        (fun m => m.user_id == uid && m.workspace_id == wid) with
    | [] =>
      rw [hfl] at hmf
      exact absurd hmf (List.not_mem_nil m)
    | [m1] =>
      rw [hfl] at hmf
      have hm1 : m = m1 := by simpa using hmf
      subst hm1
      unfold get_workspace_role scalar_one_or_none
      rw [hfl]
    | x :: y :: rest =>
      rw [hfl] at hpf
      have hxy := (List.pairwise_cons.mp hpf).1 y (by simp)
      have hx : x ∈ db.memberships.filter
          (fun m => m.user_id == uid && m.workspace_id == wid) := by
        rw [hfl]; simp
      have hy : y ∈ db.memberships.filter
          (fun m => m.user_id == uid && m.workspace_id == wid) := by
        rw [hfl]; simp
      have hxp := (List.mem_filter.mp hx).2
      have hyp := (List.mem_filter.mp hy).2
      simp only [Bool.and_eq_true, beq_iff_eq] at hxp hyp
      rcases hxy with h | h
      · exact absurd (hxp.1.trans hyp.1.symm) h
      · exact absurd (hxp.2.trans hyp.2.symm) h
  · intro hnone
    have hfl : db.memberships.filter
        (fun m => m.user_id == uid && m.workspace_id == wid) = [] := by
      rw [List.filter_eq_nil_iff]
      intro m hm
      have := hnone m hm
      simp only [Bool.and_eq_true, beq_iff_eq]
      tauto
    unfold get_workspace_role scalar_one_or_none
    rw [hfl]

/-- Witness for the amended claim C4: in the example store user 2 resolves to
member in workspace 1 (a Membership row exists) and to none in workspace 2
(no Membership row), independent of ownership. -/
theorem claim_C4_role_resolution_amended_witness :
    get_workspace_role exDB 2 1 = Except.ok (some "member") ∧
    get_workspace_role exDB 2 2 = Except.ok none :=
  ⟨(claim_C4_role_resolution_amended exDB 2 1 (by decide)).1
      { workspace_id := 1, user_id := 2, role := "member" } (by decide) rfl rfl,
   (claim_C4_role_resolution_amended exDB 2 2 (by decide)).2 (by decide)⟩

/-! Claim C3. -/

/-- Updating the workspaces whose id matches wid preserves the result of the
primary-key lookup: it returns the updated image of the row the lookup found
before, for any id-preserving update. -/
lemma find_map_upd (l : List Workspace) (wid : Nat) (w : Workspace)
    (hw : l.find? (fun x => x.id == wid) = some w) (g : Workspace → Workspace)
    (hgid : ∀ x, (g x).id = x.id) :
    (l.map (fun x => if x.id == wid then g x else x)).find? (fun x => x.id == wid)
      = some (g w) := by
  induction l with
  | nil => simp at hw
  | cons a t ih =>
    by_cases ha : (a.id == wid) = true
    · simp only [List.find?_cons, ha] at hw
      have haw : a = w := by simpa using hw
      subst haw
      have hga : ((g a).id == wid) = true := by
        rw [hgid]
        exact ha
      rw [List.map_cons, if_pos ha]
      simp only [List.find?_cons, hga]
    · have ha2 : (a.id == wid) = false := by simpa using ha
      simp only [List.find?_cons, ha2] at hw
      rw [List.map_cons, if_neg (show ¬((a.id == wid) = true) by simp [ha2])]
      simp only [List.find?_cons, ha2]
      exact ih hw

/-- Rows whose id differs from wid survive an id-conditional map update
unchanged. -/
lemma mem_map_upd (l : List Workspace) (wid : Nat) (g : Workspace → Workspace)
    (x : Workspace) (hx : x ∈ l) (hxid : x.id ≠ wid) :
    x ∈ l.map (fun y => if y.id == wid then g y else y) := by
  have : (fun y => if y.id == wid then g y else y) x = x := by
    simp [hxid]
  exact this ▸ List.mem_map_of_mem _ hx

/-- Claim C3: handle_successful_payment, in both provider variants (the
retrieved session is supplied through the Except-valued retrieval parameter):
a session that is not in a terminal success state, or lacks workspace_id
metadata, or references a missing workspace yields null with no state change;
an already-pro workspace yields its id with no mutation; otherwise the
workspace is set to plan pro with the provider customer id and an upgraded_at
stamp and committed, returning the id; a failing upgrade commit rolls back
(no partial mutation persists) and yields null. -/
theorem claim_C3_handle_successful_payment :
    (∀ (s : StripeSession) (commitOk : Bool) (now : Nat) (db : DB),
      (s.status ≠ "complete" →
        stripe_handle_successful_payment true (Except.ok s) commitOk now db =
          Except.ok (none, db)) ∧
      (s.payment_status ≠ "paid" → s.payment_status ≠ "no_payment_required" →
        stripe_handle_successful_payment true (Except.ok s) commitOk now db =
          Except.ok (none, db)) ∧
      (optStrTruthy s.metadata_workspace_id = false →
        stripe_handle_successful_payment true (Except.ok s) commitOk now db =
          Except.ok (none, db)) ∧
      (∀ ws wid, s.metadata_workspace_id = some ws → strToNat ws = some wid →
        db.workspaces.find? (fun x => x.id == wid) = none →
        stripe_handle_successful_payment true (Except.ok s) commitOk now db =
          Except.ok (none, db)) ∧
      (∀ ws wid w, s.status = "complete" →
        (s.payment_status = "paid" ∨ s.payment_status = "no_payment_required") →
        s.metadata_workspace_id = some ws → strToNat ws = some wid →
        db.workspaces.find? (fun x => x.id == wid) = some w → w.is_pro = true →
        stripe_handle_successful_payment true (Except.ok s) commitOk now db =
          Except.ok (some w.id, db)) ∧
      (∀ ws wid w, s.status = "complete" →
        (s.payment_status = "paid" ∨ s.payment_status = "no_payment_required") →
        s.metadata_workspace_id = some ws → strToNat ws = some wid →
        db.workspaces.find? (fun x => x.id == wid) = some w → w.is_pro = false →
        commitOk = true →
        ∃ db2, stripe_handle_successful_payment true (Except.ok s) commitOk now db =
            Except.ok (some w.id, db2) ∧
          db2.workspaces.find? (fun x => x.id == wid) =
            some { w with plan := "pro", billing_customer_id := s.customer,
                          upgraded_at := some now } ∧
          (∀ x ∈ db.workspaces, x.id ≠ wid → x ∈ db2.workspaces) ∧
          db2.users = db.users ∧ db2.memberships = db.memberships ∧
          db2.apiKeys = db.apiKeys ∧ db2.billingEvents = db.billingEvents) ∧
      (∀ ws wid w, s.status = "complete" →
        (s.payment_status = "paid" ∨ s.payment_status = "no_payment_required") →
        s.metadata_workspace_id = some ws → strToNat ws = some wid →
        db.workspaces.find? (fun x => x.id == wid) = some w → w.is_pro = false →
        commitOk = false →
        stripe_handle_successful_payment true (Except.ok s) commitOk now db =
          Except.ok (none, db))) ∧
    (∀ (hp : ChargebeeHostedPage) (commitOk : Bool) (now : Nat) (db : DB),
      (hp.state ≠ "succeeded" →
        chargebee_handle_successful_payment true (Except.ok hp) commitOk now db =
          Except.ok (none, db)) ∧
      (optStrTruthy hp.pass_thru_workspace_id = false →
        chargebee_handle_successful_payment true (Except.ok hp) commitOk now db =
          Except.ok (none, db)) ∧
      (∀ ws wid, hp.pass_thru_workspace_id = some ws → strToNat ws = some wid →
        db.workspaces.find? (fun x => x.id == wid) = none →
        chargebee_handle_successful_payment true (Except.ok hp) commitOk now db =
          Except.ok (none, db)) ∧
      (∀ ws wid w, hp.state = "succeeded" →
        hp.pass_thru_workspace_id = some ws → strToNat ws = some wid →
        db.workspaces.find? (fun x => x.id == wid) = some w → w.is_pro = true →
        chargebee_handle_successful_payment true (Except.ok hp) commitOk now db =
          Except.ok (some w.id, db)) ∧
      (∀ ws wid w cust, hp.state = "succeeded" →
        hp.pass_thru_workspace_id = some ws → strToNat ws = some wid →
        db.workspaces.find? (fun x => x.id == wid) = some w → w.is_pro = false →
        hp.content_customer_id = some cust → commitOk = true →
        ∃ db2, chargebee_handle_successful_payment true (Except.ok hp) commitOk now db =
            Except.ok (some w.id, db2) ∧
          db2.workspaces.find? (fun x => x.id == wid) =
            some { w with plan := "pro", billing_customer_id := some cust,
                          upgraded_at := some now } ∧
          (∀ x ∈ db.workspaces, x.id ≠ wid → x ∈ db2.workspaces) ∧
          db2.users = db.users ∧ db2.memberships = db.memberships ∧
          db2.apiKeys = db.apiKeys ∧ db2.billingEvents = db.billingEvents) ∧
      (∀ ws wid w, hp.state = "succeeded" →
        hp.pass_thru_workspace_id = some ws → strToNat ws = some wid →
        db.workspaces.find? (fun x => x.id == wid) = some w → w.is_pro = false →
        commitOk = false →
        chargebee_handle_successful_payment true (Except.ok hp) commitOk now db =
          Except.ok (none, db))) := by
  constructor
  · intro s commitOk now db
    refine ⟨?_, ?_, ?_, ?_, ?_, ?_, ?_⟩
    · intro h
      simp [stripe_handle_successful_payment, h]
    · intro h1 h2
      by_cases hst : s.status = "complete" <;>
        simp [stripe_handle_successful_payment, hst, h1, h2]
    · intro h
      by_cases hst : s.status = "complete" <;>
        by_cases hp1 : s.payment_status = "paid" <;>
        by_cases hp2 : s.payment_status = "no_payment_required" <;>
        simp [stripe_handle_successful_payment, hst, hp1, hp2, h]
    · intro ws wid hm hw hfind
      have hws : ws ≠ "" := by
        intro he
        subst he
        simp [strToNat] at hw
      by_cases hst : s.status = "complete" <;>
        by_cases hp1 : s.payment_status = "paid" <;>
        by_cases hp2 : s.payment_status = "no_payment_required" <;>
        simp [stripe_handle_successful_payment, hst, hp1, hp2, hm,
          optStrTruthy, hws, hw, hfind]
    · intro ws wid w hst hpay hm hw hfind hpro
      have hws : ws ≠ "" := by
        intro he
        subst he
        simp [strToNat] at hw
      rcases hpay with hp1 | hp1 <;>
        simp [stripe_handle_successful_payment, hst, hp1, hm,
          optStrTruthy, hws, hw, hfind, hpro]
    · intro ws wid w hst hpay hm hw hfind hpro hc
      have hws : ws ≠ "" := by
        intro he
        subst he
        simp [strToNat] at hw
      refine ⟨{ db with workspaces := db.workspaces.map (fun x =>
          if x.id == wid then
            { x with plan := "pro", billing_customer_id := s.customer,
                     upgraded_at := some now }
          else x) }, ?_, ?_, ?_, rfl, rfl, rfl, rfl⟩
      · rcases hpay with hp1 | hp1 <;>
          simp [stripe_handle_successful_payment, hst, hp1, hm,
            optStrTruthy, hws, hw, hfind, hpro, hc]
      · exact find_map_upd db.workspaces wid w hfind _ (fun x => rfl)
      · intro x hx hxid
        exact mem_map_upd db.workspaces wid _ x hx hxid
    · intro ws wid w hst hpay hm hw hfind hpro hc
      have hws : ws ≠ "" := by
        intro he
        subst he
        simp [strToNat] at hw
      rcases hpay with hp1 | hp1 <;>
        simp [stripe_handle_successful_payment, hst, hp1, hm,
          optStrTruthy, hws, hw, hfind, hpro, hc]
  · intro hp commitOk now db
    refine ⟨?_, ?_, ?_, ?_, ?_, ?_⟩
    · intro h
      simp [chargebee_handle_successful_payment, h]
    · intro h
      by_cases hst : hp.state = "succeeded" <;>
        simp [chargebee_handle_successful_payment, hst, h]
    · intro ws wid hm hw hfind
      have hws : ws ≠ "" := by
        intro he
        subst he
        simp [strToNat] at hw
      by_cases hst : hp.state = "succeeded" <;>
        simp [chargebee_handle_successful_payment, hst, hm,
          optStrTruthy, hws, hw, hfind]
    · intro ws wid w hst hm hw hfind hpro
      have hws : ws ≠ "" := by
        intro he
        subst he
        simp [strToNat] at hw
      simp [chargebee_handle_successful_payment, hst, hm,
        optStrTruthy, hws, hw, hfind, hpro]
    · intro ws wid w cust hst hm hw hfind hpro hcust hc
      have hws : ws ≠ "" := by
        intro he
        subst he
        simp [strToNat] at hw
      refine ⟨{ db with workspaces := db.workspaces.map (fun x =>
          if x.id == wid then
            { x with plan := "pro", billing_customer_id := some cust,
                     upgraded_at := some now }
          else x) }, ?_, ?_, ?_, rfl, rfl, rfl, rfl⟩
      · simp [chargebee_handle_successful_payment, hst, hm,
          optStrTruthy, hws, hw, hfind, hpro, hcust, hc]
      · exact find_map_upd db.workspaces wid w hfind _ (fun x => rfl)
      · intro x hx hxid
        exact mem_map_upd db.workspaces wid _ x hx hxid
    · intro ws wid w hst hm hw hfind hpro hc
      have hws : ws ≠ "" := by
        intro he
        subst he
        simp [strToNat] at hw
      cases hcust : hp.content_customer_id <;>
        simp [chargebee_handle_successful_payment, hst, hm,
          optStrTruthy, hws, hw, hfind, hpro, hcust, hc]

/-- Witness for claim C3 at concrete inputs: a complete and paid Stripe
session carrying workspace_id 2 upgrades free workspace 2 of the example
store to pro with customer cus_999, and a not-yet-complete session yields
null with no change. -/
theorem claim_C3_handle_successful_payment_witness :
    (∃ db2, stripe_handle_successful_payment true
        (Except.ok { id := "cs_1", status := "complete", payment_status := "paid",
                     metadata_workspace_id := some "2", customer := some "cus_999" })
        true 5 exDB = Except.ok (some 2, db2) ∧
      db2.workspaces.find? (fun x => x.id == 2) =
        some { exWs2 with plan := "pro", billing_customer_id := some "cus_999",
                          upgraded_at := some 5 }) ∧
    stripe_handle_successful_payment true
        (Except.ok { id := "cs_1", status := "open", payment_status := "unpaid" })
        true 5 exDB = Except.ok (none, exDB) := by
  constructor
  · obtain ⟨db2, h1, h2, _⟩ :=
      ((claim_C3_handle_successful_payment.1
        { id := "cs_1", status := "complete", payment_status := "paid",
          metadata_workspace_id := some "2", customer := some "cus_999" }
        true 5 exDB).2.2.2.2.2.1) "2" 2 exWs2 rfl (Or.inl rfl) rfl (by decide)
        (by decide) (by decide) rfl
    · exact ⟨db2, by simpa using h1, by simpa [exWs2] using h2⟩
  · exact (claim_C3_handle_successful_payment.1
      { id := "cs_1", status := "open", payment_status := "unpaid" }
      true 5 exDB).1 (by decide)

/-! Webhook ingestion lemmas shared by claims C2, C6, C7 and C8. -/

/-- Number of BillingEvent rows carrying a given event id. -/
def countEv (db : DB) (i : String) : Nat :=
  (db.billingEvents.filter (fun e => e.event_id == i)).length

/-- The BillingEvent row the Stripe endpoint records for an event. -/
def stripeRow (ev : StripeEvent) : BillingEvent :=
  { event_id := ev.id, event_type := some ev.type, provider := some "stripe" }

/-- The BillingEvent row the Chargebee endpoint records for an event. -/
def chargebeeRow (ev : ChargebeeEvent) : BillingEvent :=
  { event_id := ev.id, event_type := ev.event_type, provider := some "chargebee" }

/-- The state with the ledger row of a Stripe event appended. -/
def stripeRecorded (db : DB) (ev : StripeEvent) : DB :=
  { db with billingEvents := db.billingEvents ++ [stripeRow ev] }

/-- The state with the ledger row of a Chargebee event appended. -/
def chargebeeRecorded (db : DB) (ev : ChargebeeEvent) : DB :=
  { db with billingEvents := db.billingEvents ++ [chargebeeRow ev] }

/-- A verified first-seen Stripe delivery records its ledger row and runs the
dispatch block on the recorded state. -/
lemma stripe_webhook_fresh (secret : Option String) (ev : StripeEvent)
    (cfg : Bool) (ret : Except Unit StripeSession) (up down : Bool) (now : Nat)
    (db : DB) (hsec : optStrTruthy secret = true)
    (hfresh : db.billingEvents.any (fun e => e.event_id == ev.id) = false) :
    stripe_webhook secret (Except.ok ev) cfg ret up down now db =
      stripe_dispatch ev cfg ret up down now (stripeRecorded db ev) := by
  unfold stripe_webhook stripeRecorded stripeRow
  simp [hsec, hfresh]

/-- A delivery whose event id is already in the ledger is acknowledged with
200 and changes nothing (Stripe endpoint): the insert hits the unique
constraint, is rolled back, and no dispatch runs. -/
lemma stripe_webhook_dup (secret : Option String) (ev : StripeEvent)
    (cfg : Bool) (ret : Except Unit StripeSession) (up down : Bool) (now : Nat)
    (db : DB) (hsec : optStrTruthy secret = true)
    (hdup : db.billingEvents.any (fun e => e.event_id == ev.id) = true) :
    stripe_webhook secret (Except.ok ev) cfg ret up down now db =
      Except.ok { body := "OK", status := 200, db := db, dispatched := false } := by
  unfold stripe_webhook
  simp [hsec, hdup]

/-- Dispatch of a successful payment only rewrites the workspaces table: the
event ledger and the other tables come back unchanged. -/
lemma stripe_hsp_tables (cfg : Bool) (ret : Except Unit StripeSession)
    (up : Bool) (now : Nat) (db : DB) (r : Option Nat) (db2 : DB)
    (h : stripe_handle_successful_payment cfg ret up now db = Except.ok (r, db2)) :
    db2.billingEvents = db.billingEvents ∧ db2.users = db.users ∧
    db2.memberships = db.memberships ∧ db2.apiKeys = db.apiKeys := by
  unfold stripe_handle_successful_payment at h
  repeat' split at h
  all_goals simp only [Except.ok.injEq, Prod.mk.injEq, reduceCtorEq] at h
  all_goals (obtain ⟨hr, hdb⟩ := h; subst hdb; simp)

/-- Every non-raising outcome of the Stripe dispatch block is a 200
acknowledgment with body OK that leaves the event ledger as it found it. -/
lemma stripe_dispatch_ok_post (ev : StripeEvent) (cfg : Bool)
    (ret : Except Unit StripeSession) (up down : Bool) (now : Nat)
    (db1 : DB) (out : WebhookOut)
    (h : stripe_dispatch ev cfg ret up down now db1 = Except.ok out) :
    out.status = 200 ∧ out.body = "OK" ∧ out.db.billingEvents = db1.billingEvents := by
  unfold stripe_dispatch at h
  split at h
  · split at h
    · simp only [reduceCtorEq] at h
    · rename_i r db2 hok
      have ht := stripe_hsp_tables _ _ _ _ _ _ _ hok
      injection h with h1
      subst h1
      exact ⟨rfl, rfl, ht.1⟩
  · repeat' split at h
    all_goals simp only [Except.ok.injEq, reduceCtorEq] at h
    all_goals (subst h; simp)

/-- A raising Stripe dispatch escapes carrying exactly the state it was
started on (the ledger row stays recorded, nothing else was committed). -/
lemma stripe_dispatch_error_post (ev : StripeEvent) (cfg : Bool)
    (ret : Except Unit StripeSession) (up down : Bool) (now : Nat)
    (db1 : DB) (d : DB)
    (h : stripe_dispatch ev cfg ret up down now db1 = Except.error d) :
    d = db1 := by
  unfold stripe_dispatch at h
  repeat' split at h
  all_goals simp only [Except.error.injEq, reduceCtorEq] at h
  all_goals (subst h; rfl)

/-- An authenticated first-seen Chargebee delivery records its ledger row and
runs the dispatch block on the recorded state. -/
lemma chargebee_webhook_fresh (u p : Option String) (dbg : Bool)
    (auth : Option (String × String)) (ev : ChargebeeEvent) (down : Bool)
    (db : DB) (hauth : chargebee_verify_auth u p dbg auth = true)
    (hfresh : db.billingEvents.any (fun e => e.event_id == ev.id) = false) :
    chargebee_webhook u p dbg auth (some ev) down db =
      chargebee_dispatch ev down (chargebeeRecorded db ev) := by
  unfold chargebee_webhook chargebeeRecorded chargebeeRow
  simp [hauth, hfresh]

/-- Chargebee duplicate delivery: acknowledged with 200, nothing changes, no
dispatch. -/
lemma chargebee_webhook_dup (u p : Option String) (dbg : Bool)
    (auth : Option (String × String)) (ev : ChargebeeEvent) (down : Bool)
    (db : DB) (hauth : chargebee_verify_auth u p dbg auth = true)
    (hdup : db.billingEvents.any (fun e => e.event_id == ev.id) = true) :
    chargebee_webhook u p dbg auth (some ev) down db =
      Except.ok { body := "OK", status := 200, db := db, dispatched := false } := by
  unfold chargebee_webhook
  simp [hauth, hdup]

/-- Every non-raising outcome of the Chargebee dispatch block is a 200
acknowledgment with body OK that leaves the event ledger as it found it. -/
lemma chargebee_dispatch_ok_post (ev : ChargebeeEvent) (down : Bool)
    (db1 : DB) (out : WebhookOut)
    (h : chargebee_dispatch ev down db1 = Except.ok out) :
    out.status = 200 ∧ out.body = "OK" ∧ out.db.billingEvents = db1.billingEvents := by
  unfold chargebee_dispatch at h
  repeat' split at h
  all_goals simp only [Except.ok.injEq, reduceCtorEq] at h
  all_goals (subst h; simp)

/-- A raising Chargebee dispatch escapes carrying exactly the state it was
started on. -/
lemma chargebee_dispatch_error_post (ev : ChargebeeEvent) (down : Bool)
    (db1 : DB) (d : DB)
    (h : chargebee_dispatch ev down db1 = Except.error d) :
    d = db1 := by
  unfold chargebee_dispatch at h
  repeat' split at h
  all_goals simp only [Except.error.injEq, reduceCtorEq] at h
  all_goals (subst h; rfl)

/-- Appending a row for event id i to a ledger that has no row for i leaves
exactly one row for i. -/
lemma count_append_fresh (l : List BillingEvent) (i : String)
    (row : BillingEvent) (hrow : (row.event_id == i) = true)
    (hfresh : l.any (fun e => e.event_id == i) = false) :
    ((l ++ [row]).filter (fun e => e.event_id == i)).length = 1 := by
  have hl : l.filter (fun e => e.event_id == i) = [] := by
    rw [List.filter_eq_nil_iff]
    intro a ha
    have := (List.any_eq_false.mp hfresh) a ha
    simpa using this
  rw [List.filter_append, hl]
  simp [hrow]

/-- A ledger extended with a row for event id i answers the duplicate check
for i positively. -/
lemma any_append_row (l : List BillingEvent) (i : String)
    (row : BillingEvent) (hrow : (row.event_id == i) = true) :
    ((l ++ [row]).any (fun e => e.event_id == i)) = true := by
  rw [List.any_append]
  simp [hrow]

/-! Claim C2. -/

/-- Claim C2: after a first delivery of a verified webhook event (whatever
its dispatch did, even if it raised), the ledger holds exactly one
BillingEvent row for that event id, and redelivering the same payload — with
any provider-call outcomes and commit behaviours — is acknowledged with 200,
dispatches nothing and leaves the entire store unchanged.  Both provider
endpoints. -/
theorem claim_C2_idempotent_delivery :
    (∀ (secret : Option String) (ev : StripeEvent) (cfg : Bool)
       (ret : Except Unit StripeSession) (up down : Bool) (now : Nat) (db : DB),
      optStrTruthy secret = true →
      db.billingEvents.any (fun e => e.event_id == ev.id) = false →
      (∀ out, stripe_webhook secret (Except.ok ev) cfg ret up down now db = Except.ok out →
        countEv out.db ev.id = 1 ∧
        ∀ (cfg2 : Bool) (ret2 : Except Unit StripeSession) (up2 down2 : Bool) (now2 : Nat),
          stripe_webhook secret (Except.ok ev) cfg2 ret2 up2 down2 now2 out.db =
            Except.ok { body := "OK", status := 200, db := out.db, dispatched := false }) ∧
      (∀ d, stripe_webhook secret (Except.ok ev) cfg ret up down now db = Except.error d →
        countEv d ev.id = 1 ∧
        ∀ (cfg2 : Bool) (ret2 : Except Unit StripeSession) (up2 down2 : Bool) (now2 : Nat),
          stripe_webhook secret (Except.ok ev) cfg2 ret2 up2 down2 now2 d =
            Except.ok { body := "OK", status := 200, db := d, dispatched := false })) ∧
    (∀ (u p : Option String) (dbg : Bool) (auth : Option (String × String))
       (ev : ChargebeeEvent) (down : Bool) (db : DB),
      chargebee_verify_auth u p dbg auth = true →
      db.billingEvents.any (fun e => e.event_id == ev.id) = false →
      (∀ out, chargebee_webhook u p dbg auth (some ev) down db = Except.ok out →
        countEv out.db ev.id = 1 ∧
        ∀ (down2 : Bool),
          chargebee_webhook u p dbg auth (some ev) down2 out.db =
            Except.ok { body := "OK", status := 200, db := out.db, dispatched := false }) ∧
      (∀ d, chargebee_webhook u p dbg auth (some ev) down db = Except.error d →
        countEv d ev.id = 1 ∧
        ∀ (down2 : Bool),
          chargebee_webhook u p dbg auth (some ev) down2 d =
            Except.ok { body := "OK", status := 200, db := d, dispatched := false })) := by
  have hrowS : ∀ ev : StripeEvent, ((stripeRow ev).event_id == ev.id) = true := by
    intro ev
    simp [stripeRow]
  have hrowC : ∀ ev : ChargebeeEvent, ((chargebeeRow ev).event_id == ev.id) = true := by
    intro ev
    simp [chargebeeRow]
  constructor
  · intro secret ev cfg ret up down now db hsec hfresh
    constructor
    · intro out h
      rw [stripe_webhook_fresh secret ev cfg ret up down now db hsec hfresh] at h
      have hpost := stripe_dispatch_ok_post ev cfg ret up down now _ out h
      have hev : out.db.billingEvents = db.billingEvents ++ [stripeRow ev] := by
        simpa [stripeRecorded] using hpost.2.2
      have hany : out.db.billingEvents.any (fun e => e.event_id == ev.id) = true := by
        rw [hev]
        exact any_append_row _ _ _ (hrowS ev)
      refine ⟨?_, ?_⟩
      · unfold countEv
        rw [hev]
        exact count_append_fresh _ _ _ (hrowS ev) hfresh
      · intro cfg2 ret2 up2 down2 now2
        exact stripe_webhook_dup secret ev cfg2 ret2 up2 down2 now2 out.db hsec hany
    · intro d h
      rw [stripe_webhook_fresh secret ev cfg ret up down now db hsec hfresh] at h
      have hd := stripe_dispatch_error_post ev cfg ret up down now _ d h
      have hev : d.billingEvents = db.billingEvents ++ [stripeRow ev] := by
        rw [hd]
        simp [stripeRecorded]
      have hany : d.billingEvents.any (fun e => e.event_id == ev.id) = true := by
        rw [hev]
        exact any_append_row _ _ _ (hrowS ev)
      refine ⟨?_, ?_⟩
      · unfold countEv
        rw [hev]
        exact count_append_fresh _ _ _ (hrowS ev) hfresh
      · intro cfg2 ret2 up2 down2 now2
        exact stripe_webhook_dup secret ev cfg2 ret2 up2 down2 now2 d hsec hany
  · intro u p dbg auth ev down db hauth hfresh
    constructor
    · intro out h
      rw [chargebee_webhook_fresh u p dbg auth ev down db hauth hfresh] at h
      have hpost := chargebee_dispatch_ok_post ev down _ out h
      have hev : out.db.billingEvents = db.billingEvents ++ [chargebeeRow ev] := by
        simpa [chargebeeRecorded] using hpost.2.2
      have hany : out.db.billingEvents.any (fun e => e.event_id == ev.id) = true := by
        rw [hev]
        exact any_append_row _ _ _ (hrowC ev)
      refine ⟨?_, ?_⟩
      · unfold countEv
        rw [hev]
        exact count_append_fresh _ _ _ (hrowC ev) hfresh
      · intro down2
        exact chargebee_webhook_dup u p dbg auth ev down2 out.db hauth hany
    · intro d h
      rw [chargebee_webhook_fresh u p dbg auth ev down db hauth hfresh] at h
      have hd := chargebee_dispatch_error_post ev down _ d h
      have hev : d.billingEvents = db.billingEvents ++ [chargebeeRow ev] := by
        rw [hd]
        simp [chargebeeRecorded]
      have hany : d.billingEvents.any (fun e => e.event_id == ev.id) = true := by
        rw [hev]
        exact any_append_row _ _ _ (hrowC ev)
      refine ⟨?_, ?_⟩
      · unfold countEv
        rw [hev]
        exact count_append_fresh _ _ _ (hrowC ev) hfresh
      · intro down2
        exact chargebee_webhook_dup u p dbg auth ev down2 d hauth hany

/-- Concrete unrecognized-type Stripe event used by the C2 witness. -/
def c2Ev : StripeEvent := { id := "evt_2", type := "payment_intent.created" }

/-- Witness for claim C2 at concrete inputs: delivering event evt_2 to the
example store records one ledger row, and redelivering it returns 200 with
the store untouched and nothing dispatched. -/
theorem claim_C2_idempotent_delivery_witness :
    countEv (stripeRecorded exDB c2Ev) "evt_2" = 1 ∧
    stripe_webhook (some "whsec") (Except.ok c2Ev) true (Except.error ()) true
        true 0 (stripeRecorded exDB c2Ev) =
      Except.ok { body := "OK", status := 200, db := stripeRecorded exDB c2Ev,
                  dispatched := false } := by
  have h := (claim_C2_idempotent_delivery.1 (some "whsec") c2Ev true
      (Except.error ()) true true 0 exDB (by decide) (by decide)).1
    { body := "OK", status := 200, db := stripeRecorded exDB c2Ev,
      dispatched := false } rfl
  exact ⟨h.1, h.2 true (Except.error ()) true true 0⟩

/-! Claim C6.  The source wraps no try/except around dispatch: an exception
raised while dispatching a recorded event (for example a provider API error
while retrieving the checkout session) escapes the handler, and the framework
answers it with a 500 rather than the claimed 200. -/

/-- Concrete checkout-completed Stripe event used by the C6 counterexample. -/
def c6Ev : StripeEvent :=
  { id := "evt_1", type := "checkout.session.completed", obj_id := some "cs_1" }

/-- Counterexample to claim C6 as stated: a verified, first-seen
checkout-completed event whose session retrieval raises makes the endpoint
raise (a non-200 outcome) even though its BillingEvent row was already
durably recorded. -/
theorem claim_C6_counterexample :
    stripe_webhook (some "whsec") (Except.ok c6Ev) true (Except.error ()) true
        true 0 {} = Except.error (stripeRecorded {} c6Ev) ∧
    (stripeRecorded {} c6Ev).billingEvents.any
      (fun e => e.event_id == "evt_1") = true ∧
    ∀ out, stripe_webhook (some "whsec") (Except.ok c6Ev) true (Except.error ())
        true true 0 {} ≠ Except.ok out := by
  have h : stripe_webhook (some "whsec") (Except.ok c6Ev) true (Except.error ())
      true true 0 {} = Except.error (stripeRecorded {} c6Ev) := rfl
  refine ⟨h, by decide, ?_⟩
  intro out hout
  rw [h] at hout
  exact Except.noConfusion hout

/-- Claim C6 (amended): once a verified webhook event is durably recorded,
the endpoint returns 200 with body OK on every path on which dispatch does
not raise — including duplicates, unrecognized types, and the
payment-handler paths whose own try/except converts an upgrade-commit
failure into a logged no-op; but an exception raised during dispatch itself
(provider session retrieval failure, unconfigured provider key, or a failing
downgrade commit) propagates as a non-200 error response while the
BillingEvent row stays recorded.  Both provider endpoints. -/
theorem claim_C6_ack_contract_amended :
    (∀ (secret : Option String) (ev : StripeEvent) (cfg : Bool)
       (ret : Except Unit StripeSession) (up down : Bool) (now : Nat) (db : DB),
      optStrTruthy secret = true →
      (∀ out, stripe_webhook secret (Except.ok ev) cfg ret up down now db = Except.ok out →
        out.status = 200 ∧ out.body = "OK") ∧
      (∀ d, stripe_webhook secret (Except.ok ev) cfg ret up down now db = Except.error d →
        d.billingEvents.any (fun e => e.event_id == ev.id) = true)) ∧
    (∀ (u p : Option String) (dbg : Bool) (auth : Option (String × String))
       (ev : ChargebeeEvent) (down : Bool) (db : DB),
      chargebee_verify_auth u p dbg auth = true →
      (∀ out, chargebee_webhook u p dbg auth (some ev) down db = Except.ok out →
        out.status = 200 ∧ out.body = "OK") ∧
      (∀ d, chargebee_webhook u p dbg auth (some ev) down db = Except.error d →
        d.billingEvents.any (fun e => e.event_id == ev.id) = true)) := by
  constructor
  · intro secret ev cfg ret up down now db hsec
    by_cases hdup : db.billingEvents.any (fun e => e.event_id == ev.id) = true
    · rw [stripe_webhook_dup secret ev cfg ret up down now db hsec hdup]
      constructor
      · intro out h
        injection h with h1
        subst h1
        exact ⟨rfl, rfl⟩
      · intro d h
        exact absurd h (by simp)
    · have hfresh : db.billingEvents.any (fun e => e.event_id == ev.id) = false := by
        simpa using hdup
      rw [stripe_webhook_fresh secret ev cfg ret up down now db hsec hfresh]
      constructor
      · intro out h
        have hpost := stripe_dispatch_ok_post ev cfg ret up down now _ out h
        exact ⟨hpost.1, hpost.2.1⟩
      · intro d h
        have hd := stripe_dispatch_error_post ev cfg ret up down now _ d h
        rw [hd]
        simp only [stripeRecorded]
        exact any_append_row _ _ _ (by simp [stripeRow])
  · intro u p dbg auth ev down db hauth
    by_cases hdup : db.billingEvents.any (fun e => e.event_id == ev.id) = true
    · rw [chargebee_webhook_dup u p dbg auth ev down db hauth hdup]
      constructor
      · intro out h
        injection h with h1
        subst h1
        exact ⟨rfl, rfl⟩
      · intro d h
        exact absurd h (by simp)
    · have hfresh : db.billingEvents.any (fun e => e.event_id == ev.id) = false := by
        simpa using hdup
      rw [chargebee_webhook_fresh u p dbg auth ev down db hauth hfresh]
      constructor
      · intro out h
        have hpost := chargebee_dispatch_ok_post ev down _ out h
        exact ⟨hpost.1, hpost.2.1⟩
      · intro d h
        have hd := chargebee_dispatch_error_post ev down _ d h
        rw [hd]
        simp only [chargebeeRecorded]
        exact any_append_row _ _ _ (by simp [chargebeeRow])

/-- Witness for the amended claim C6 at concrete inputs: a first-seen
unrecognized event acknowledged by the Stripe endpoint comes back 200 with
body OK. -/
theorem claim_C6_ack_contract_amended_witness :
    stripe_webhook (some "whsec") (Except.ok c2Ev) true (Except.error ()) true
        true 0 exDB =
      Except.ok { body := "OK", status := 200, db := stripeRecorded exDB c2Ev,
                  dispatched := false } ∧
    ({ body := "OK", status := 200, db := stripeRecorded exDB c2Ev,
       dispatched := false } : WebhookOut).status = 200 ∧
    ({ body := "OK", status := 200, db := stripeRecorded exDB c2Ev,
       dispatched := false } : WebhookOut).body = "OK" := by
  have h := (claim_C6_ack_contract_amended.1 (some "whsec") c2Ev true
      (Except.error ()) true true 0 exDB (by decide)).1
    { body := "OK", status := 200, db := stripeRecorded exDB c2Ev,
      dispatched := false } rfl
  exact ⟨rfl, h.1, h.2⟩

/-! Claim C7. -/

/-- Claim C7: on a first-seen subscription-cancelled event the workspace is
looked up by the event customer id against billing_customer_id; when exactly
one matches, its plan is set to free and committed unconditionally — also
when it is already free, witnessed by the failing-commit run raising instead
of skipping the write — and when none matches no workspace state changes.
Both provider endpoints. -/
theorem claim_C7_subscription_cancelled :
    (∀ (secret : Option String) (ev : StripeEvent) (cfg : Bool)
       (ret : Except Unit StripeSession) (up : Bool) (now : Nat) (db : DB)
       (c : Option String) (w : Workspace),
      optStrTruthy secret = true →
      ev.type = "customer.subscription.deleted" →
      ev.obj_customer = c →
      db.billingEvents.any (fun e => e.event_id == ev.id) = false →
      (db.workspaces.filter (fun x => x.billing_customer_id == c) = [w] →
        stripe_webhook secret (Except.ok ev) cfg ret up true now db =
          Except.ok
            { body := "OK", status := 200,
              db :=
                { stripeRecorded db ev with
                  workspaces := db.workspaces.map
                    (fun x => if x.id == w.id then { x with plan := "free" } else x) },
              dispatched := true } ∧
        { w with plan := "free" } ∈ db.workspaces.map
          (fun x => if x.id == w.id then { x with plan := "free" } else x) ∧
        stripe_webhook secret (Except.ok ev) cfg ret up false now db =
          Except.error (stripeRecorded db ev)) ∧
      (db.workspaces.filter (fun x => x.billing_customer_id == c) = [] →
        ∀ down, stripe_webhook secret (Except.ok ev) cfg ret up down now db =
          Except.ok { body := "OK", status := 200, db := stripeRecorded db ev,
                      dispatched := true })) ∧
    (∀ (u p : Option String) (dbg : Bool) (auth : Option (String × String))
       (ev : ChargebeeEvent) (db : DB) (c : Option String) (w : Workspace),
      chargebee_verify_auth u p dbg auth = true →
      ev.event_type = some "subscription_cancelled" →
      ev.content_customer_id = c →
      db.billingEvents.any (fun e => e.event_id == ev.id) = false →
      (db.workspaces.filter (fun x => x.billing_customer_id == c) = [w] →
        chargebee_webhook u p dbg auth (some ev) true db =
          Except.ok
            { body := "OK", status := 200,
              db :=
                { chargebeeRecorded db ev with
                  workspaces := db.workspaces.map
                    (fun x => if x.id == w.id then { x with plan := "free" } else x) },
              dispatched := true } ∧
        chargebee_webhook u p dbg auth (some ev) false db =
          Except.error (chargebeeRecorded db ev)) ∧
      (db.workspaces.filter (fun x => x.billing_customer_id == c) = [] →
        ∀ down, chargebee_webhook u p dbg auth (some ev) down db =
          Except.ok { body := "OK", status := 200, db := chargebeeRecorded db ev,
                      dispatched := true })) := by
  constructor
  · intro secret ev cfg ret up now db c w hsec htype hc hfresh
    have h1 : (ev.type == "checkout.session.completed") = false := by
      rw [htype]
      decide
    have h2 : (ev.type == "customer.subscription.deleted") = true := by
      rw [htype]
      decide
    constructor
    · intro hmatch
      have hscal : scalar_one_or_none ((stripeRecorded db ev).workspaces.filter
          (fun x => x.billing_customer_id == ev.obj_customer)) = Except.ok (some w) := by
        show scalar_one_or_none (db.workspaces.filter
          (fun x => x.billing_customer_id == ev.obj_customer)) = Except.ok (some w)
        rw [hc, hmatch]
        rfl
      refine ⟨?_, ?_, ?_⟩
      · rw [stripe_webhook_fresh secret ev cfg ret up true now db hsec hfresh]
        unfold stripe_dispatch
        rw [if_neg (by simp [h1]), if_pos h2, hscal]
        simp [stripeRecorded]
      · have hwf : w ∈ db.workspaces.filter
            (fun x => x.billing_customer_id == c) := by
          rw [hmatch]
          simp
        have hwmem : w ∈ db.workspaces := (List.mem_filter.mp hwf).1
        have himg : (fun x => if x.id == w.id then { x with plan := "free" } else x) w
            = { w with plan := "free" } := by simp
        exact himg ▸ List.mem_map_of_mem _ hwmem
      · rw [stripe_webhook_fresh secret ev cfg ret up false now db hsec hfresh]
        unfold stripe_dispatch
        rw [if_neg (by simp [h1]), if_pos h2, hscal]
        simp
    · intro hnone down
      have hscal : scalar_one_or_none ((stripeRecorded db ev).workspaces.filter
          (fun x => x.billing_customer_id == ev.obj_customer)) = Except.ok none := by
        show scalar_one_or_none (db.workspaces.filter
          (fun x => x.billing_customer_id == ev.obj_customer)) = Except.ok none
        rw [hc, hnone]
        rfl
      rw [stripe_webhook_fresh secret ev cfg ret up down now db hsec hfresh]
      unfold stripe_dispatch
      rw [if_neg (by simp [h1]), if_pos h2, hscal]
  · intro u p dbg auth ev db c w hauth htype hc hfresh
    have h2 : (ev.event_type == some "subscription_cancelled") = true := by
      rw [htype]
      decide
    constructor
    · intro hmatch
      have hscal : scalar_one_or_none ((chargebeeRecorded db ev).workspaces.filter
          (fun x => x.billing_customer_id == ev.content_customer_id)) =
            Except.ok (some w) := by
        show scalar_one_or_none (db.workspaces.filter
          (fun x => x.billing_customer_id == ev.content_customer_id)) = Except.ok (some w)
        rw [hc, hmatch]
        rfl
      constructor
      · rw [chargebee_webhook_fresh u p dbg auth ev true db hauth hfresh]
        unfold chargebee_dispatch
        rw [if_pos h2, hscal]
        simp [chargebeeRecorded]
      · rw [chargebee_webhook_fresh u p dbg auth ev false db hauth hfresh]
        unfold chargebee_dispatch
        rw [if_pos h2, hscal]
        simp
    · intro hnone down
      have hscal : scalar_one_or_none ((chargebeeRecorded db ev).workspaces.filter
          (fun x => x.billing_customer_id == ev.content_customer_id)) =
            Except.ok none := by
        show scalar_one_or_none (db.workspaces.filter
          (fun x => x.billing_customer_id == ev.content_customer_id)) = Except.ok none
        rw [hc, hnone]
        rfl
      rw [chargebee_webhook_fresh u p dbg auth ev down db hauth hfresh]
      unfold chargebee_dispatch
      rw [if_pos h2, hscal]

/-- Concrete subscription-cancelled Stripe event for customer cus_123. -/
def c7Ev : StripeEvent :=
  { id := "evt_3", type := "customer.subscription.deleted",
    obj_customer := some "cus_123" }

/-- Witness for claim C7 at concrete inputs: cancelling the subscription of
customer cus_123 downgrades workspace 2 of the example store (already free —
the write still happens) and acknowledges with 200. -/
theorem claim_C7_subscription_cancelled_witness :
    stripe_webhook (some "whsec") (Except.ok c7Ev) true (Except.error ()) true
        true 0 exDB =
      Except.ok
        { body := "OK", status := 200,
          db :=
            { stripeRecorded exDB c7Ev with
              workspaces := exDB.workspaces.map
                (fun x => if x.id == exWs2.id then { x with plan := "free" } else x) },
          dispatched := true } ∧
    stripe_webhook (some "whsec") (Except.ok c7Ev) true (Except.error ()) true
        false 0 exDB = Except.error (stripeRecorded exDB c7Ev) := by
  have h := ((claim_C7_subscription_cancelled.1 (some "whsec") c7Ev true
      (Except.error ()) true 0 exDB (some "cus_123") exWs2 (by decide) rfl rfl
      (by decide)).1 (by decide))
  exact ⟨h.1, h.2.2⟩

/-! Claim C8. -/

/-- Claim C8: on a first-seen payment-failed event the workspace is looked
up by the event customer id against billing_customer_id; the downgrade to
free is written and committed only when exactly one workspace matches and it
is currently pro; an already-free match, or no match, produces no write at
all (the outcome is the same for a failing downgrade commit).  Both provider
endpoints. -/
theorem claim_C8_payment_failed :
    (∀ (secret : Option String) (ev : StripeEvent) (cfg : Bool)
       (ret : Except Unit StripeSession) (up : Bool) (now : Nat) (db : DB)
       (c : Option String) (w : Workspace),
      optStrTruthy secret = true →
      ev.type = "invoice.payment_failed" →
      ev.obj_customer = c →
      db.billingEvents.any (fun e => e.event_id == ev.id) = false →
      (db.workspaces.filter (fun x => x.billing_customer_id == c) = [w] →
        w.plan = "pro" →
        stripe_webhook secret (Except.ok ev) cfg ret up true now db =
          Except.ok
            { body := "OK", status := 200,
              db :=
                { stripeRecorded db ev with
                  workspaces := db.workspaces.map
                    (fun x => if x.id == w.id then { x with plan := "free" } else x) },
              dispatched := true } ∧
        stripe_webhook secret (Except.ok ev) cfg ret up false now db =
          Except.error (stripeRecorded db ev)) ∧
      (db.workspaces.filter (fun x => x.billing_customer_id == c) = [w] →
        w.plan ≠ "pro" →
        ∀ down, stripe_webhook secret (Except.ok ev) cfg ret up down now db =
          Except.ok { body := "OK", status := 200, db := stripeRecorded db ev,
                      dispatched := true }) ∧
      (db.workspaces.filter (fun x => x.billing_customer_id == c) = [] →
        ∀ down, stripe_webhook secret (Except.ok ev) cfg ret up down now db =
          Except.ok { body := "OK", status := 200, db := stripeRecorded db ev,
                      dispatched := true })) ∧
    (∀ (u p : Option String) (dbg : Bool) (auth : Option (String × String))
       (ev : ChargebeeEvent) (db : DB) (c : Option String) (w : Workspace),
      chargebee_verify_auth u p dbg auth = true →
      ev.event_type = some "payment_failed" →
      ev.content_customer_id = c →
      db.billingEvents.any (fun e => e.event_id == ev.id) = false →
      (db.workspaces.filter (fun x => x.billing_customer_id == c) = [w] →
        w.plan = "pro" →
        chargebee_webhook u p dbg auth (some ev) true db =
          Except.ok
            { body := "OK", status := 200,
              db :=
                { chargebeeRecorded db ev with
                  workspaces := db.workspaces.map
                    (fun x => if x.id == w.id then { x with plan := "free" } else x) },
              dispatched := true } ∧
        chargebee_webhook u p dbg auth (some ev) false db =
          Except.error (chargebeeRecorded db ev)) ∧
      (db.workspaces.filter (fun x => x.billing_customer_id == c) = [w] →
        w.plan ≠ "pro" →
        ∀ down, chargebee_webhook u p dbg auth (some ev) down db =
          Except.ok { body := "OK", status := 200, db := chargebeeRecorded db ev,
                      dispatched := true }) ∧
      (db.workspaces.filter (fun x => x.billing_customer_id == c) = [] →
        ∀ down, chargebee_webhook u p dbg auth (some ev) down db =
          Except.ok { body := "OK", status := 200, db := chargebeeRecorded db ev,
                      dispatched := true })) := by
  constructor
  · intro secret ev cfg ret up now db c w hsec htype hc hfresh
    have h1 : (ev.type == "checkout.session.completed") = false := by
      rw [htype]
      decide
    have h2 : (ev.type == "customer.subscription.deleted") = false := by
      rw [htype]
      decide
    have h3 : (ev.type == "invoice.payment_failed") = true := by
      rw [htype]
      decide
    refine ⟨?_, ?_, ?_⟩
    · intro hmatch hpro
      have hproB : (w.plan == "pro") = true := by
        rw [hpro]
        decide
      have hscal : scalar_one_or_none ((stripeRecorded db ev).workspaces.filter
          (fun x => x.billing_customer_id == ev.obj_customer)) = Except.ok (some w) := by
        show scalar_one_or_none (db.workspaces.filter
          (fun x => x.billing_customer_id == ev.obj_customer)) = Except.ok (some w)
        rw [hc, hmatch]
        rfl
      constructor
      · rw [stripe_webhook_fresh secret ev cfg ret up true now db hsec hfresh]
        unfold stripe_dispatch
        rw [if_neg (by simp [h1]), if_neg (by simp [h2]), if_pos h3, hscal]
        simp [stripeRecorded, hproB]
      · rw [stripe_webhook_fresh secret ev cfg ret up false now db hsec hfresh]
        unfold stripe_dispatch
        rw [if_neg (by simp [h1]), if_neg (by simp [h2]), if_pos h3, hscal]
        simp [hproB]
    · intro hmatch hpro down
      have hproB : (w.plan == "pro") = false := by
        simpa using hpro
      have hscal : scalar_one_or_none ((stripeRecorded db ev).workspaces.filter
          (fun x => x.billing_customer_id == ev.obj_customer)) = Except.ok (some w) := by
        show scalar_one_or_none (db.workspaces.filter
          (fun x => x.billing_customer_id == ev.obj_customer)) = Except.ok (some w)
        rw [hc, hmatch]
        rfl
      rw [stripe_webhook_fresh secret ev cfg ret up down now db hsec hfresh]
      unfold stripe_dispatch
      rw [if_neg (by simp [h1]), if_neg (by simp [h2]), if_pos h3, hscal]
      simp [hproB]
    · intro hnone down
      have hscal : scalar_one_or_none ((stripeRecorded db ev).workspaces.filter
          (fun x => x.billing_customer_id == ev.obj_customer)) = Except.ok none := by
        show scalar_one_or_none (db.workspaces.filter
          (fun x => x.billing_customer_id == ev.obj_customer)) = Except.ok none
        rw [hc, hnone]
        rfl
      rw [stripe_webhook_fresh secret ev cfg ret up down now db hsec hfresh]
      unfold stripe_dispatch
      rw [if_neg (by simp [h1]), if_neg (by simp [h2]), if_pos h3, hscal]
  · intro u p dbg auth ev db c w hauth htype hc hfresh
    have h2 : (ev.event_type == some "subscription_cancelled") = false := by
      rw [htype]
      decide
    have h3 : (ev.event_type == some "payment_failed") = true := by
      rw [htype]
      decide
    refine ⟨?_, ?_, ?_⟩
    · intro hmatch hpro
      have hproB : (w.plan == "pro") = true := by
        rw [hpro]
        decide
      have hscal : scalar_one_or_none ((chargebeeRecorded db ev).workspaces.filter
          (fun x => x.billing_customer_id == ev.content_customer_id)) =
            Except.ok (some w) := by
        show scalar_one_or_none (db.workspaces.filter
          (fun x => x.billing_customer_id == ev.content_customer_id)) = Except.ok (some w)
        rw [hc, hmatch]
        rfl
      constructor
      · rw [chargebee_webhook_fresh u p dbg auth ev true db hauth hfresh]
        unfold chargebee_dispatch
        rw [if_neg (by simp [h2]), if_pos h3, hscal]
        simp [chargebeeRecorded, hproB]
      · rw [chargebee_webhook_fresh u p dbg auth ev false db hauth hfresh]
        unfold chargebee_dispatch
        rw [if_neg (by simp [h2]), if_pos h3, hscal]
        simp [hproB]
    · intro hmatch hpro down
      have hproB : (w.plan == "pro") = false := by
        simpa using hpro
      have hscal : scalar_one_or_none ((chargebeeRecorded db ev).workspaces.filter
          (fun x => x.billing_customer_id == ev.content_customer_id)) =
            Except.ok (some w) := by
        show scalar_one_or_none (db.workspaces.filter
          (fun x => x.billing_customer_id == ev.content_customer_id)) = Except.ok (some w)
        rw [hc, hmatch]
        rfl
      rw [chargebee_webhook_fresh u p dbg auth ev down db hauth hfresh]
      unfold chargebee_dispatch
      rw [if_neg (by simp [h2]), if_pos h3, hscal]
      simp [hproB]
    · intro hnone down
      have hscal : scalar_one_or_none ((chargebeeRecorded db ev).workspaces.filter
          (fun x => x.billing_customer_id == ev.content_customer_id)) =
            Except.ok none := by
        show scalar_one_or_none (db.workspaces.filter
          (fun x => x.billing_customer_id == ev.content_customer_id)) = Except.ok none
        rw [hc, hnone]
        rfl
      rw [chargebee_webhook_fresh u p dbg auth ev down db hauth hfresh]
      unfold chargebee_dispatch
      rw [if_neg (by simp [h2]), if_pos h3, hscal]

/-- Concrete payment-failed Stripe event for customer cus_123. -/
def c8Ev : StripeEvent :=
  { id := "evt_4", type := "invoice.payment_failed",
    obj_customer := some "cus_123" }

/-- The example store with workspace 2 upgraded to pro. -/
def exDBpro : DB :=
  { exDB with workspaces := [exWs1, { exWs2 with plan := "pro" }] }

/-- Witness for claim C8 at concrete inputs: a payment failure for cus_123
downgrades pro workspace 2 and commits, while against the store where
workspace 2 is already free the event acknowledges 200 and writes nothing,
commit behaviour irrelevant. -/
theorem claim_C8_payment_failed_witness :
    stripe_webhook (some "whsec") (Except.ok c8Ev) true (Except.error ()) true
        true 0 exDBpro =
      Except.ok
        { body := "OK", status := 200,
          db :=
            { stripeRecorded exDBpro c8Ev with
              workspaces := exDBpro.workspaces.map
                (fun x => if x.id == exWs2.id then { x with plan := "free" } else x) },
          dispatched := true } ∧
    (∀ down, stripe_webhook (some "whsec") (Except.ok c8Ev) true (Except.error ())
        true down 0 exDB =
      Except.ok { body := "OK", status := 200, db := stripeRecorded exDB c8Ev,
                  dispatched := true }) := by
  constructor
  · have h := ((claim_C8_payment_failed.1 (some "whsec") c8Ev true
        (Except.error ()) true 0 exDBpro (some "cus_123") { exWs2 with plan := "pro" }
        (by decide) rfl rfl (by decide)).1 (by decide) rfl).1
    simpa [exWs2] using h
  · exact (claim_C8_payment_failed.1 (some "whsec") c8Ev true
      (Except.error ()) true 0 exDB (some "cus_123") exWs2
      (by decide) rfl rfl (by decide)).2.1 (by decide) (by decide)

/-! Claim C5. -/

/-- from_dict never touches the superadmin flag. -/
lemma from_dict_superadmin (u : User) (d : UserItemData) :
    (User.from_dict u d).is_superadmin = u.is_superadmin := rfl

/-- Replacing the user with id uid by v changes the p-count of the user table
by swapping the found row u for v: counts balance as an equation. -/
lemma filter_length_map_replace (l : List User) :
    ∀ (uid : Nat) (v u : User),
    l.Pairwise (fun a b => a.id ≠ b.id) →
    l.find? (fun x => x.id == uid) = some u →
    ∀ (p : User → Bool),
    ((l.map (fun x => if x.id == uid then v else x)).filter p).length
      + (if p u then 1 else 0)
    = (l.filter p).length + (if p v then 1 else 0) := by
  induction l with
  | nil =>
    intro uid v u hpk hu p
    simp at hu
  | cons a t ih =>
    intro uid v u hpk hu p
    rcases List.pairwise_cons.mp hpk with ⟨hat, hpt⟩
    by_cases ha : (a.id == uid) = true
    · simp only [List.find?_cons, ha] at hu
      have hau : a = u := by simpa using hu
      subst hau
      have ha2 : a.id = uid := by simpa using ha
      have ht : t.map (fun x => if x.id == uid then v else x) = t := by
        have h2 : ∀ x ∈ t, (if x.id == uid then v else x) = x := by
          intro x hx
          have hne : x.id ≠ uid := by
            intro he
            exact (hat x hx) (ha2.trans he.symm)
          simp [hne]
        calc t.map (fun x => if x.id == uid then v else x)
            = t.map id := List.map_congr_left h2
          _ = t := List.map_id t
      rw [List.map_cons, if_pos ha, ht]
      simp only [List.filter_cons]
      by_cases hpv : p v = true <;> by_cases hpu : p a = true <;>
        simp [hpv, hpu]
    · have ha2 : (a.id == uid) = false := by simpa using ha
      simp only [List.find?_cons, ha2] at hu
      have hrec := ih uid v u hpt hu p
      rw [List.map_cons, if_neg (by simp [ha2])]
      simp only [List.filter_cons]
      by_cases hpa : p a = true <;>
        simp only [hpa, if_true, if_false, List.length_cons,
          Bool.false_eq_true] <;> omega

/-- Superadmin count after the create-commit step. -/
lemma saCount_create_finish (db : DB) (user : User) (d : UserItemData)
    (commitOk : Bool) :
    saCount (api_user_create_finish db user d commitOk).db =
      if commitOk then
        saCount db + (if user.is_superadmin then 1 else 0)
      else saCount db := by
  unfold api_user_create_finish saCount
  cases commitOk
  · simp
  · simp only [List.filter_append, List.length_append, if_true]
    cases hsu : user.is_superadmin <;> simp [hsu]

/-- The update-commit step leaves the user table as the id-conditional
replacement (memberships handling never touches users). -/
lemma update_finish_users (db : DB) (uid : Nat) (user : User)
    (d : UserItemData) :
    (api_user_update_finish db uid user d true).db.users =
      db.users.map (fun x => if x.id == uid then user else x) := by
  unfold api_user_update_finish
  cases d.workspace_ids with
  | none => simp
  | some ids => by_cases hsa : user.is_superadmin <;> simp [hsa]

/-- A failing update commit rolls the whole request back. -/
lemma update_finish_rollback (db : DB) (uid : Nat) (user : User)
    (d : UserItemData) :
    api_user_update_finish db uid user d false = { status := 400, db := db } := by
  unfold api_user_update_finish
  cases d.workspace_ids with
  | none => simp
  | some ids => by_cases hsa : user.is_superadmin <;> simp [hsa]

/-- Promoting a non-superadmin is rejected with 400 whenever one superadmin
row exists. -/
lemma validate_promote_reject (db : DB) (u' : User)
    (hsa : u'.is_superadmin = false) (hcount : saCount db = 1) :
    validate_super_admin_change db u' true =
      Except.ok (some
        ("Only one super admin is allowed. Use CLI command to create additional super admins if needed.",
         400)) := by
  obtain ⟨s, hs⟩ := List.length_eq_one.mp
    (show (db.users.filter (fun u => u.is_superadmin)).length = 1 from hcount)
  unfold validate_super_admin_change
  rw [hsa, hs]
  rfl

/-- A promotion that validates silently can only happen when no superadmin
row exists at all. -/
lemma validate_promote_none (db : DB) (u' : User)
    (hsa : u'.is_superadmin = false)
    (h : validate_super_admin_change db u' true = Except.ok none) :
    saCount db = 0 := by
  unfold validate_super_admin_change at h
  rw [hsa] at h
  simp only [Bool.not_false, Bool.and_true, if_true] at h
  unfold saCount
  rcases hfl : db.users.filter (fun u => u.is_superadmin) with _ | ⟨a, _ | ⟨b, t⟩⟩
  · rw [hfl]
    rfl
  · rw [hfl] at h
    simp [scalar_one_or_none] at h
  · rw [hfl] at h
    simp [scalar_one_or_none] at h

/-- Demoting a superadmin is rejected with 400 when at most one superadmin
row exists. -/
lemma validate_demote_reject (db : DB) (u' : User)
    (hsa : u'.is_superadmin = true) (hcount : saCount db ≤ 1) :
    validate_super_admin_change db u' false =
      Except.ok (some
        ("Cannot remove the last super admin. Create another super admin first.",
         400)) := by
  unfold validate_super_admin_change
  rw [hsa]
  simp [hcount]

/-- A demotion that validates silently can only happen with more than one
superadmin row. -/
lemma validate_demote_none (db : DB) (u' : User)
    (hsa : u'.is_superadmin = true)
    (h : validate_super_admin_change db u' false = Except.ok none) :
    ¬(saCount db ≤ 1) := by
  intro hle
  unfold validate_super_admin_change at h
  rw [hsa] at h
  simp [hle] at h

/-- The committed update step keeps the superadmin count at most one
whenever the replacement row keeps the flag of the replaced row, is the
promotion of the only candidate in a store without superadmins, or carries
no flag at all. -/
lemma saCount_update_finish_le (db : DB) (uid : Nat) (v u : User)
    (d : UserItemData)
    (hpk : db.users.Pairwise (fun a b => a.id ≠ b.id))
    (hu : db.users.find? (fun x => x.id == uid) = some u)
    (hinv : saCount db ≤ 1)
    (hcase : v.is_superadmin = u.is_superadmin ∨
      (v.is_superadmin = true ∧ saCount db = 0) ∨
      v.is_superadmin = false) :
    saCount (api_user_update_finish db uid v d true).db ≤ 1 := by
  have hbal := filter_length_map_replace db.users uid v u hpk hu
    (fun x => x.is_superadmin)
  have hgoal : saCount (api_user_update_finish db uid v d true).db
      = ((db.users.map (fun x => if x.id == uid then v else x)).filter
          (fun x => x.is_superadmin)).length := by
    unfold saCount
    rw [update_finish_users]
  rw [hgoal]
  unfold saCount at hinv
  cases hus : u.is_superadmin
  · cases hvs : v.is_superadmin
    · simp only [hus, hvs, Bool.false_eq_true, if_false] at hbal
      omega
    · rcases hcase with hcs | ⟨hv1, hz⟩ | hv0
      · rw [hus, hvs] at hcs
        simp at hcs
      · unfold saCount at hz
        simp only [hus, hvs, Bool.false_eq_true, eq_self_iff_true, if_true,
          if_false] at hbal
        omega
      · rw [hvs] at hv0
        simp at hv0
  · cases hvs : v.is_superadmin
    · simp only [hus, hvs, Bool.false_eq_true, eq_self_iff_true, if_true,
        if_false] at hbal
      omega
    · simp only [hus, hvs, eq_self_iff_true, if_true] at hbal
      omega

/-- Claim C5: starting from a state with exactly one superadmin, promoting a
second user via the user-update or user-create endpoint is rejected with 400
and no state change, and demoting the sole superadmin is rejected with 400
and no state change; moreover every state reached through these two
operations from a state with at most one superadmin again has at most one
superadmin. -/
theorem claim_C5_single_superadmin :
    (∀ (db : DB) (uid : Nat) (u : User) (d : UserItemData) (commitOk : Bool),
      saCount db = 1 →
      db.users.find? (fun x => x.id == uid) = some u →
      u.is_superadmin = false →
      d.is_superadmin_key = true → d.is_superadmin_val = true →
      api_user_update db uid d commitOk = Except.ok { status := 400, db := db }) ∧
    (∀ (db : DB) (d : UserItemData) (newId : Nat) (commitOk : Bool),
      saCount db = 1 →
      d.is_superadmin_key = true → d.is_superadmin_val = true →
      api_user_create db d newId commitOk = Except.ok { status := 400, db := db }) ∧
    (∀ (db : DB) (uid : Nat) (u : User) (d : UserItemData) (commitOk : Bool),
      saCount db = 1 →
      db.users.find? (fun x => x.id == uid) = some u →
      u.is_superadmin = true →
      d.is_superadmin_key = true → d.is_superadmin_val = false →
      api_user_update db uid d commitOk = Except.ok { status := 400, db := db }) ∧
    (∀ (db : DB) (d : UserItemData) (newId : Nat) (commitOk : Bool) (res : ApiResult),
      saCount db ≤ 1 →
      api_user_create db d newId commitOk = Except.ok res →
      saCount res.db ≤ 1) ∧
    (∀ (db : DB) (uid : Nat) (d : UserItemData) (commitOk : Bool) (res : ApiResult),
      saCount db ≤ 1 →
      db.users.Pairwise (fun a b => a.id ≠ b.id) →
      api_user_update db uid d commitOk = Except.ok res →
      saCount res.db ≤ 1) := by
  refine ⟨?_, ?_, ?_, ?_, ?_⟩
  · intro db uid u d commitOk hcount hu hsa hkey hval
    have hrej := validate_promote_reject db (User.from_dict u d)
      (by rw [from_dict_superadmin]; exact hsa) hcount
    unfold api_user_update
    rw [hu, hkey, hval]
    simp only [if_true]
    rw [hrej]
  · intro db d newId commitOk hcount hkey hval
    have hrej := validate_promote_reject db
      (User.from_dict { id := newId } d) rfl hcount
    unfold api_user_create
    rw [hkey, hval]
    simp only [Bool.and_self, if_true]
    rw [hrej]
  · intro db uid u d commitOk hcount hu hsa hkey hval
    have hrej := validate_demote_reject db (User.from_dict u d)
      (by rw [from_dict_superadmin]; exact hsa) (le_of_eq hcount)
    unfold api_user_update
    rw [hu, hkey, hval]
    simp only [if_true]
    rw [hrej]
  · intro db d newId commitOk res hinv h
    unfold api_user_create at h
    by_cases hkv : (d.is_superadmin_key && d.is_superadmin_val) = true
    · rw [if_pos hkv] at h
      rcases hv : validate_super_admin_change db
          (User.from_dict { id := newId } d) true with e | (_ | ⟨msg, code⟩)
      · rw [hv] at h
        simp at h
      · rw [hv] at h
        have hzero := validate_promote_none db
          (User.from_dict { id := newId } d) rfl hv
        injection h with h1
        subst h1
        rw [saCount_create_finish]
        cases commitOk <;> simp [hzero]
      · rw [hv] at h
        injection h with h1
        subst h1
        exact hinv
    · rw [if_neg hkv] at h
      injection h with h1
      subst h1
      rw [saCount_create_finish]
      rw [from_dict_superadmin]
      cases commitOk <;> simp <;> omega
  · intro db uid d commitOk res hinv hpk h
    rcases hu : db.users.find? (fun x => x.id == uid) with _ | u
    · have e1 : api_user_update db uid d commitOk =
          Except.ok { status := 404, db := db } := by
        unfold api_user_update
        rw [hu]
      rw [e1] at h
      injection h with h1
      subst h1
      exact hinv
    · by_cases hkey : d.is_superadmin_key = true
      · rcases hv : validate_super_admin_change db (User.from_dict u d)
            d.is_superadmin_val with e | (_ | ⟨msg, code⟩)
        · have e1 : api_user_update db uid d commitOk = Except.error () := by
            unfold api_user_update
            rw [hu]
            simp only [hkey, hv, eq_self_iff_true, if_true]
          rw [e1] at h
          simp at h
        · have e1 : api_user_update db uid d commitOk =
              Except.ok (api_user_update_finish db uid
                { User.from_dict u d with is_superadmin := d.is_superadmin_val }
                d commitOk) := by
            unfold api_user_update
            rw [hu]
            simp only [hkey, hv, eq_self_iff_true, if_true]
          rw [e1] at h
          injection h with h1
          subst h1
          cases commitOk
          · rw [update_finish_rollback]
            exact hinv
          · apply saCount_update_finish_le db uid _ u d hpk hu hinv
            have hvsa : ({ User.from_dict u d with
                is_superadmin := d.is_superadmin_val } : User).is_superadmin
                = d.is_superadmin_val := rfl
            by_cases hval : d.is_superadmin_val = true
            · by_cases hsa : u.is_superadmin = true
              · exact Or.inl (by rw [hvsa, hval, hsa])
              · have hsa2 : u.is_superadmin = false := by simpa using hsa
                have hzero := validate_promote_none db (User.from_dict u d)
                  (by rw [from_dict_superadmin]; exact hsa2)
                  (by rw [hval] at hv; exact hv)
                exact Or.inr (Or.inl ⟨by rw [hvsa, hval], hzero⟩)
            · have hval2 : d.is_superadmin_val = false := by simpa using hval
              exact Or.inr (Or.inr (by rw [hvsa, hval2]))
        · have e1 : api_user_update db uid d commitOk =
              Except.ok { status := code, db := db } := by
            unfold api_user_update
            rw [hu]
            simp only [hkey, hv, eq_self_iff_true, if_true]
          rw [e1] at h
          injection h with h1
          subst h1
          exact hinv
      · have hkey2 : d.is_superadmin_key = false := by simpa using hkey
        have e1 : api_user_update db uid d commitOk =
            Except.ok (api_user_update_finish db uid (User.from_dict u d)
              d commitOk) := by
          unfold api_user_update
          rw [hu]
          simp only [hkey2, Bool.false_eq_true, if_false]
        rw [e1] at h
        injection h with h1
        subst h1
        cases commitOk
        · rw [update_finish_rollback]
          exact hinv
        · exact saCount_update_finish_le db uid _ u d hpk hu hinv
            (Or.inl (from_dict_superadmin u d))

/-- Witness for claim C5 at concrete inputs: in the example store (sole
superadmin: user 3) promoting user 2 is rejected with 400 and no change,
demoting user 3 is rejected with 400 and no change, and the update that
renames user 2 keeps the superadmin count at one. -/
theorem claim_C5_single_superadmin_witness :
    api_user_update exDB 2
        { is_superadmin_key := true, is_superadmin_val := true } true =
      Except.ok { status := 400, db := exDB } ∧
    api_user_update exDB 3
        { is_superadmin_key := true, is_superadmin_val := false } true =
      Except.ok { status := 400, db := exDB } ∧
    api_user_create exDB
        { is_superadmin_key := true, is_superadmin_val := true } 9 true =
      Except.ok { status := 400, db := exDB } := by
  refine ⟨?_, ?_, ?_⟩
  · exact claim_C5_single_superadmin.1 exDB 2 exUserA
      { is_superadmin_key := true, is_superadmin_val := true } true
      (by decide) (by decide) rfl rfl rfl
  · exact claim_C5_single_superadmin.2.2.1 exDB 3
      { id := 3, email := "o@example.com", is_superadmin := true }
      { is_superadmin_key := true, is_superadmin_val := false } true
      (by decide) (by decide) rfl rfl rfl
  · exact claim_C5_single_superadmin.2.1 exDB
      { is_superadmin_key := true, is_superadmin_val := true } 9 true
      (by decide) rfl rfl

/-! Claim C1. -/

/-- For a non-superadmin caller with no ownership of and no Membership in
the workspace named in the URL, the gate denies: 403 when the workspace
exists, 404 when it does not. -/
lemma gate_denies (minRole : String) (db : DB) (a : User) (wid2 : Nat)
    (sess : Option Nat)
    (hsa : a.is_superadmin = false)
    (hown : ∀ w ∈ db.workspaces, w.id = wid2 → w.owner_id ≠ a.id)
    (hmem : ∀ m ∈ db.memberships, ¬(m.user_id = a.id ∧ m.workspace_id = wid2)) :
    require_workspace_access minRole db a (some wid2) sess =
      GateResult.denied
        (match db.workspaces.find? (fun w => w.id == wid2) with
         | some _ => 403
         | none => 404) := by
  rcases hf : db.workspaces.find? (fun w => w.id == wid2) with _ | w
  · unfold require_workspace_access
    simp [Option.orElse, hf]
  · have hw_mem : w ∈ db.workspaces := List.mem_of_find?_eq_some hf
    have hw_id : w.id = wid2 := by simpa using List.find?_some hf
    have hown2 : (w.owner_id == a.id) = false := by
      simp only [beq_eq_false_iff_ne]
      exact hown w hw_mem hw_id
    have hfm : db.memberships.find?
        (fun m => m.user_id == a.id && m.workspace_id == wid2) = none := by
      rw [List.find?_eq_none]
      intro m hm hc
      simp only [Bool.and_eq_true, beq_iff_eq] at hc
      exact (hmem m hm) hc
    have hres : resolve_role db a wid2 = none := by
      unfold resolve_role
      rw [hf]
      simp [hown2, hfm]
    unfold require_workspace_access
    simp [Option.orElse, hf, hsa, hres]

/-- Claim C1: a user who is not a superadmin, does not own workspace wid2
and has no Membership row in it receives a bare 403 (404 when the workspace
does not exist) from every workspace-wid2-scoped endpoint — members list,
API-key list, create and revoke, stats, and update — with no wid2 data in
the response and the store unchanged, even though wid2 is supplied directly
in the URL path. -/
theorem claim_C1_cross_tenant_isolation (db : DB) (a : User) (wid2 : Nat)
    (hsa : a.is_superadmin = false)
    (hown : ∀ w ∈ db.workspaces, w.id = wid2 → w.owner_id ≠ a.id)
    (hmem : ∀ m ∈ db.memberships, ¬(m.user_id = a.id ∧ m.workspace_id = wid2)) :
    ∃ s, (s = 403 ∨ s = 404) ∧
      list_api_keys db a wid2 = (Resp.err s, db) ∧
      (∀ nm ni fk pf kh, create_api_key db a wid2 nm ni fk pf kh = (Resp.err s, db)) ∧
      (∀ kid, revoke_api_key db a wid2 kid = (Resp.err s, db)) ∧
      workspace_stats db a wid2 = (Resp.err s, db) ∧
      (∀ nm ck, workspace_update db a wid2 nm ck = (Resp.err s, db)) ∧
      (∀ pg pp, workspace_members db a wid2 pg pp = (Resp.err s, db)) := by
  refine ⟨match db.workspaces.find? (fun w => w.id == wid2) with
    | some _ => 403
    | none => 404, ?_, ?_, ?_, ?_, ?_, ?_, ?_⟩
  · rcases hf : db.workspaces.find? (fun w => w.id == wid2) with _ | w <;>
      rw [hf] <;> simp
  · unfold list_api_keys
    rw [gate_denies "member" db a wid2 none hsa hown hmem]
  · intro nm ni fk pf kh
    unfold create_api_key
    rw [gate_denies "admin" db a wid2 none hsa hown hmem]
  · intro kid
    unfold revoke_api_key
    rw [gate_denies "admin" db a wid2 none hsa hown hmem]
  · unfold workspace_stats
    rw [gate_denies "member" db a wid2 none hsa hown hmem]
  · intro nm ck
    unfold workspace_update
    rw [gate_denies "admin" db a wid2 none hsa hown hmem]
  · intro pg pp
    unfold workspace_members
    rw [gate_denies "member" db a wid2 none hsa hown hmem]

/-- Witness for claim C1 at concrete inputs: user 2 (a member of workspace 1
only) is denied on every workspace-2-scoped endpoint of the example store. -/
theorem claim_C1_cross_tenant_isolation_witness :
    ∃ s, (s = 403 ∨ s = 404) ∧
      list_api_keys exDB exUserA 2 = (Resp.err s, exDB) ∧
      (∀ nm ni fk pf kh,
        create_api_key exDB exUserA 2 nm ni fk pf kh = (Resp.err s, exDB)) ∧
      (∀ kid, revoke_api_key exDB exUserA 2 kid = (Resp.err s, exDB)) ∧
      workspace_stats exDB exUserA 2 = (Resp.err s, exDB) ∧
      (∀ nm ck, workspace_update exDB exUserA 2 nm ck = (Resp.err s, exDB)) ∧
      (∀ pg pp, workspace_members exDB exUserA 2 pg pp = (Resp.err s, exDB)) :=
  claim_C1_cross_tenant_isolation exDB exUserA 2 (by decide) (by decide) (by decide)

end ReadyKit
